import Mathlib

/-!
Descriptor resolution of USBemani (`Descriptors.c`).

A shallow embedding of `CALLBACK_USB_GetDescriptor` and of the descriptor data it
serves.  Bytes and 16-bit values are natural numbers, narrowing casts are written
out with `%`.  The model is the build in which
`HAS_MULTIPLE_DESCRIPTOR_ADDRESS_SPACES` is defined, so the memory-space output
parameter exists.  The two global objects the function writes, `GenericReport`
and `ProductStringCustom`, form the explicit state; the objects behind the
`Device` and `Rotary` pointers are inputs.
-/

namespace USBemani

/-! ## Library constants (LUFA `StdDescriptors.h`, `HIDClassCommon.h`) -/

/-- Value of `NO_DESCRIPTOR`, the size returned when nothing matches. -/
def NO_DESCRIPTOR : Nat := 0

/-- Descriptor type of a device descriptor. -/
def DTYPE_Device : Nat := 0x01
/-- Descriptor type of a configuration descriptor. -/
def DTYPE_Configuration : Nat := 0x02
/-- Descriptor type of a string descriptor. -/
def DTYPE_String : Nat := 0x03
/-- Descriptor type of the HID class descriptor. -/
def HID_DTYPE_HID : Nat := 0x21
/-- Descriptor type of the HID report descriptor. -/
def HID_DTYPE_Report : Nat := 0x22
/-- Language identifier of English (United States). -/
def LANGUAGE_ID_ENG : Nat := 0x0409

/-- Modelled from the spec: `Descriptors.h` is absent; the string index of the
language table. -/
def STRING_ID_Language : Nat := 0
/-- Modelled from the spec: `Descriptors.h` is absent; the string index of the
manufacturer string. -/
def STRING_ID_Manufacturer : Nat := 1
/-- Modelled from the spec: `Descriptors.h` is absent; the string index of the
product string. -/
def STRING_ID_Product : Nat := 2

/-- Modelled from the spec: `Config.h` is absent; the name selector is the
enumeration Default, Player1, Player2, Custom, here the value of Player1. -/
def N_P1 : Nat := 1
/-- Modelled from the spec: `Config.h` is absent; the value of Player2. -/
def N_P2 : Nat := 2
/-- Modelled from the spec: `Config.h` is absent; the value of Custom. -/
def N_Custom : Nat := 3

/-- Memory spaces a descriptor can live in (`USB_DescriptorMemorySpaces_t`). -/
inductive MemorySpace where
  | MEMSPACE_FLASH
  | MEMSPACE_EEPROM
  | MEMSPACE_RAM
  deriving DecidableEq, Repr

/-- The objects whose address the resolver can hand out, and `NULL`. -/
inductive Address where
  | NULL
  | DeviceDescriptor
  | ConfigurationDescriptor
  | HID_GenericHID
  | LanguageString
  | ManufacturerString
  | ProductString
  | ProductString1P
  | ProductString2P
  | ProductStringCustom
  | GenericReport
  deriving DecidableEq, Repr

/-! ## Structure sizes (packed LUFA layouts, one summand per field) -/

/-- Bytes of `USB_Descriptor_Header_t`: Size, Type. -/
def sizeof_USB_Descriptor_Header_t : Nat := 1 + 1

/-- Bytes of `USB_Descriptor_Device_t`: header, USBSpecification, Class, SubClass,
Protocol, Endpoint0Size, VendorID, ProductID, ReleaseNumber, ManufacturerStrIndex,
ProductStrIndex, SerialNumStrIndex, NumberOfConfigurations. -/
def sizeof_USB_Descriptor_Device_t : Nat :=
  sizeof_USB_Descriptor_Header_t + 2 + 1 + 1 + 1 + 1 + 2 + 2 + 2 + 1 + 1 + 1 + 1

/-- Bytes of `USB_Descriptor_Configuration_Header_t`: header,
TotalConfigurationSize, TotalInterfaces, ConfigurationNumber,
ConfigurationStrIndex, ConfigAttributes, MaxPowerConsumption. -/
def sizeof_USB_Descriptor_Configuration_Header_t : Nat :=
  sizeof_USB_Descriptor_Header_t + 2 + 1 + 1 + 1 + 1 + 1

/-- Bytes of `USB_Descriptor_Interface_t`: header, InterfaceNumber,
AlternateSetting, TotalEndpoints, Class, SubClass, Protocol, InterfaceStrIndex. -/
def sizeof_USB_Descriptor_Interface_t : Nat :=
  sizeof_USB_Descriptor_Header_t + 1 + 1 + 1 + 1 + 1 + 1 + 1

/-- Bytes of `USB_HID_Descriptor_HID_t`: header, HIDSpec, CountryCode,
TotalReportDescriptors, HIDReportType, HIDReportLength. -/
def sizeof_USB_HID_Descriptor_HID_t : Nat :=
  sizeof_USB_Descriptor_Header_t + 2 + 1 + 1 + 1 + 2

/-- Bytes of `USB_Descriptor_Endpoint_t`: header, EndpointAddress, Attributes,
EndpointSize, PollingIntervalMS. -/
def sizeof_USB_Descriptor_Endpoint_t : Nat :=
  sizeof_USB_Descriptor_Header_t + 1 + 1 + 2 + 1

/-- Bytes of `USB_Descriptor_Configuration_t`, with the members the initialiser
of `ConfigurationDescriptor` lists: Config, HID_Interface, HID_GenericHID,
HID_ReportINEndpoint, HID_ReportOUTEndpoint. -/
def sizeof_USB_Descriptor_Configuration_t : Nat :=
  sizeof_USB_Descriptor_Configuration_Header_t + sizeof_USB_Descriptor_Interface_t
    + sizeof_USB_HID_Descriptor_HID_t + sizeof_USB_Descriptor_Endpoint_t
    + sizeof_USB_Descriptor_Endpoint_t

/-! ## HID report items (LUFA `HIDReportData.h`) -/

def HID_RI_TYPE_MAIN : Nat := 0x00
def HID_RI_TYPE_GLOBAL : Nat := 0x04
def HID_RI_TYPE_LOCAL : Nat := 0x08

/-- Size code in the low two bits of an item's first byte. -/
def HID_RI_DATA_BITS (DataBits : Nat) : Nat :=
  if DataBits = 8 then 0x01
  else if DataBits = 16 then 0x02
  else if DataBits = 32 then 0x03
  else 0x00

/-- One data byte, `Data & 0xFF` (`_HID_RI_ENCODE_8`). -/
def HID_RI_ENCODE_8 (Data : Int) : List Nat := [(Data % 256).toNat]

/-- Two data bytes, low byte first (`_HID_RI_ENCODE_16`). -/
def HID_RI_ENCODE_16 (Data : Int) : List Nat :=
  HID_RI_ENCODE_8 Data ++ HID_RI_ENCODE_8 (Data >>> 8)

/-- Four data bytes, low byte first (`_HID_RI_ENCODE_32`). -/
def HID_RI_ENCODE_32 (Data : Int) : List Nat :=
  HID_RI_ENCODE_16 Data ++ HID_RI_ENCODE_16 (Data >>> 16)

/-- Data bytes of an item of the given width, none for width 0 (`_HID_RI_ENCODE`). -/
def HID_RI_ENCODE (DataBits : Nat) (Data : Int) : List Nat :=
  if DataBits = 8 then HID_RI_ENCODE_8 Data
  else if DataBits = 16 then HID_RI_ENCODE_16 Data
  else if DataBits = 32 then HID_RI_ENCODE_32 Data
  else []

/-- An item: the byte `Type | Tag | size code`, then the data bytes
(`_HID_RI_ENTRY`). -/
def HID_RI_ENTRY (ItemType Tag DataBits : Nat) (Data : Int) : List Nat :=
  (ItemType ||| Tag ||| HID_RI_DATA_BITS DataBits) :: HID_RI_ENCODE DataBits Data

def HID_RI_INPUT (DataBits : Nat) (Data : Int) : List Nat :=
  HID_RI_ENTRY HID_RI_TYPE_MAIN 0x80 DataBits Data
def HID_RI_OUTPUT (DataBits : Nat) (Data : Int) : List Nat :=
  HID_RI_ENTRY HID_RI_TYPE_MAIN 0x90 DataBits Data
def HID_RI_COLLECTION (DataBits : Nat) (Data : Int) : List Nat :=
  HID_RI_ENTRY HID_RI_TYPE_MAIN 0xA0 DataBits Data
def HID_RI_END_COLLECTION (DataBits : Nat) (Data : Int) : List Nat :=
  HID_RI_ENTRY HID_RI_TYPE_MAIN 0xC0 DataBits Data
def HID_RI_USAGE_PAGE (DataBits : Nat) (Data : Int) : List Nat :=
  HID_RI_ENTRY HID_RI_TYPE_GLOBAL 0x00 DataBits Data
def HID_RI_LOGICAL_MINIMUM (DataBits : Nat) (Data : Int) : List Nat :=
  HID_RI_ENTRY HID_RI_TYPE_GLOBAL 0x10 DataBits Data
def HID_RI_LOGICAL_MAXIMUM (DataBits : Nat) (Data : Int) : List Nat :=
  HID_RI_ENTRY HID_RI_TYPE_GLOBAL 0x20 DataBits Data
def HID_RI_REPORT_SIZE (DataBits : Nat) (Data : Int) : List Nat :=
  HID_RI_ENTRY HID_RI_TYPE_GLOBAL 0x70 DataBits Data
def HID_RI_REPORT_COUNT (DataBits : Nat) (Data : Int) : List Nat :=
  HID_RI_ENTRY HID_RI_TYPE_GLOBAL 0x90 DataBits Data
def HID_RI_USAGE (DataBits : Nat) (Data : Int) : List Nat :=
  HID_RI_ENTRY HID_RI_TYPE_LOCAL 0x00 DataBits Data
def HID_RI_USAGE_MINIMUM (DataBits : Nat) (Data : Int) : List Nat :=
  HID_RI_ENTRY HID_RI_TYPE_LOCAL 0x10 DataBits Data
def HID_RI_USAGE_MAXIMUM (DataBits : Nat) (Data : Int) : List Nat :=
  HID_RI_ENTRY HID_RI_TYPE_LOCAL 0x20 DataBits Data

def HID_IOF_CONSTANT : Nat := 1 <<< 0
def HID_IOF_DATA : Nat := 0 <<< 0
def HID_IOF_VARIABLE : Nat := 1 <<< 1
def HID_IOF_ABSOLUTE : Nat := 0 <<< 2
def HID_IOF_WRAP : Nat := 1 <<< 3
def HID_IOF_NO_PREFERRED_STATE : Nat := 1 <<< 5
def HID_IOF_NON_VOLATILE : Nat := 0 <<< 7

/-- Initial contents of the array `GenericReport`, item by item as in the source. -/
def GenericReport_items : List (List Nat) :=
  [ HID_RI_USAGE_PAGE 8 (0x01),
    HID_RI_USAGE 8 (0x04),
    HID_RI_COLLECTION 8 (0x01),
    HID_RI_USAGE 8 (0x01),
    HID_RI_COLLECTION 8 (0x00),
    HID_RI_USAGE 8 (0x30),
    HID_RI_USAGE 8 (0x31),
    HID_RI_LOGICAL_MINIMUM 8 (-100),
    HID_RI_LOGICAL_MAXIMUM 8 (100),
    HID_RI_REPORT_COUNT 8 (0x02),
    HID_RI_REPORT_SIZE 8 (0x08),
    HID_RI_INPUT 8 ((HID_IOF_DATA ||| HID_IOF_VARIABLE ||| HID_IOF_ABSOLUTE : Nat) : Int),
    HID_RI_USAGE 8 (0x37),
    HID_RI_USAGE 8 (0x36),
    HID_RI_LOGICAL_MINIMUM 16 (0),
    HID_RI_LOGICAL_MAXIMUM 16 (255),
    HID_RI_REPORT_COUNT 8 (0x02),
    HID_RI_REPORT_SIZE 8 (0x08),
    HID_RI_INPUT 8 ((HID_IOF_DATA ||| HID_IOF_VARIABLE ||| HID_IOF_ABSOLUTE ||| HID_IOF_WRAP ||| HID_IOF_NO_PREFERRED_STATE : Nat) : Int),
    HID_RI_END_COLLECTION 0 0,
    HID_RI_USAGE_PAGE 8 (0x09),
    HID_RI_USAGE_MINIMUM 8 (1),
    HID_RI_USAGE_MAXIMUM 8 (11),
    HID_RI_LOGICAL_MINIMUM 8 (0x00),
    HID_RI_LOGICAL_MAXIMUM 8 (0x01),
    HID_RI_REPORT_SIZE 8 (1),
    HID_RI_REPORT_COUNT 8 (11),
    HID_RI_INPUT 8 ((HID_IOF_DATA ||| HID_IOF_VARIABLE ||| HID_IOF_ABSOLUTE : Nat) : Int),
    HID_RI_REPORT_SIZE 8 (0x05),
    HID_RI_REPORT_COUNT 8 (0x01),
    HID_RI_INPUT 8 ((HID_IOF_CONSTANT : Nat) : Int),
    HID_RI_USAGE_PAGE 8 (0x0A),
    HID_RI_USAGE 8 (1),
    HID_RI_COLLECTION 8 (0x02),
    HID_RI_USAGE_PAGE 8 (0x08),
    HID_RI_USAGE 8 (0x4B),
    HID_RI_REPORT_SIZE 8 (1),
    HID_RI_REPORT_COUNT 8 (1),
    HID_RI_OUTPUT 8 ((HID_IOF_DATA ||| HID_IOF_VARIABLE ||| HID_IOF_ABSOLUTE ||| HID_IOF_NON_VOLATILE : Nat) : Int),
    HID_RI_END_COLLECTION 0 0,
    HID_RI_USAGE 8 (2),
    HID_RI_COLLECTION 8 (0x02),
    HID_RI_USAGE_PAGE 8 (0x08),
    HID_RI_USAGE 8 (0x4B),
    HID_RI_REPORT_SIZE 8 (1),
    HID_RI_REPORT_COUNT 8 (1),
    HID_RI_OUTPUT 8 ((HID_IOF_DATA ||| HID_IOF_VARIABLE ||| HID_IOF_ABSOLUTE ||| HID_IOF_NON_VOLATILE : Nat) : Int),
    HID_RI_END_COLLECTION 0 0,
    HID_RI_USAGE 8 (3),
    HID_RI_COLLECTION 8 (0x02),
    HID_RI_USAGE_PAGE 8 (0x08),
    HID_RI_USAGE 8 (0x4B),
    HID_RI_REPORT_SIZE 8 (1),
    HID_RI_REPORT_COUNT 8 (1),
    HID_RI_OUTPUT 8 ((HID_IOF_DATA ||| HID_IOF_VARIABLE ||| HID_IOF_ABSOLUTE ||| HID_IOF_NON_VOLATILE : Nat) : Int),
    HID_RI_END_COLLECTION 0 0,
    HID_RI_USAGE 8 (4),
    HID_RI_COLLECTION 8 (0x02),
    HID_RI_USAGE_PAGE 8 (0x08),
    HID_RI_USAGE 8 (0x4B),
    HID_RI_REPORT_SIZE 8 (1),
    HID_RI_REPORT_COUNT 8 (1),
    HID_RI_OUTPUT 8 ((HID_IOF_DATA ||| HID_IOF_VARIABLE ||| HID_IOF_ABSOLUTE ||| HID_IOF_NON_VOLATILE : Nat) : Int),
    HID_RI_END_COLLECTION 0 0,
    HID_RI_USAGE 8 (5),
    HID_RI_COLLECTION 8 (0x02),
    HID_RI_USAGE_PAGE 8 (0x08),
    HID_RI_USAGE 8 (0x4B),
    HID_RI_REPORT_SIZE 8 (1),
    HID_RI_REPORT_COUNT 8 (1),
    HID_RI_OUTPUT 8 ((HID_IOF_DATA ||| HID_IOF_VARIABLE ||| HID_IOF_ABSOLUTE ||| HID_IOF_NON_VOLATILE : Nat) : Int),
    HID_RI_END_COLLECTION 0 0,
    HID_RI_USAGE 8 (6),
    HID_RI_COLLECTION 8 (0x02),
    HID_RI_USAGE_PAGE 8 (0x08),
    HID_RI_USAGE 8 (0x4B),
    HID_RI_REPORT_SIZE 8 (1),
    HID_RI_REPORT_COUNT 8 (1),
    HID_RI_OUTPUT 8 ((HID_IOF_DATA ||| HID_IOF_VARIABLE ||| HID_IOF_ABSOLUTE ||| HID_IOF_NON_VOLATILE : Nat) : Int),
    HID_RI_END_COLLECTION 0 0,
    HID_RI_USAGE 8 (7),
    HID_RI_COLLECTION 8 (0x02),
    HID_RI_USAGE_PAGE 8 (0x08),
    HID_RI_USAGE 8 (0x4B),
    HID_RI_REPORT_SIZE 8 (1),
    HID_RI_REPORT_COUNT 8 (1),
    HID_RI_OUTPUT 8 ((HID_IOF_DATA ||| HID_IOF_VARIABLE ||| HID_IOF_ABSOLUTE ||| HID_IOF_NON_VOLATILE : Nat) : Int),
    HID_RI_END_COLLECTION 0 0,
    HID_RI_USAGE 8 (8),
    HID_RI_COLLECTION 8 (0x02),
    HID_RI_USAGE_PAGE 8 (0x08),
    HID_RI_USAGE 8 (0x4B),
    HID_RI_REPORT_SIZE 8 (1),
    HID_RI_REPORT_COUNT 8 (1),
    HID_RI_OUTPUT 8 ((HID_IOF_DATA ||| HID_IOF_VARIABLE ||| HID_IOF_ABSOLUTE ||| HID_IOF_NON_VOLATILE : Nat) : Int),
    HID_RI_END_COLLECTION 0 0,
    HID_RI_USAGE 8 (9),
    HID_RI_COLLECTION 8 (0x02),
    HID_RI_USAGE_PAGE 8 (0x08),
    HID_RI_USAGE 8 (0x4B),
    HID_RI_REPORT_SIZE 8 (1),
    HID_RI_REPORT_COUNT 8 (1),
    HID_RI_OUTPUT 8 ((HID_IOF_DATA ||| HID_IOF_VARIABLE ||| HID_IOF_ABSOLUTE ||| HID_IOF_NON_VOLATILE : Nat) : Int),
    HID_RI_END_COLLECTION 0 0,
    HID_RI_USAGE 8 (10),
    HID_RI_COLLECTION 8 (0x02),
    HID_RI_USAGE_PAGE 8 (0x08),
    HID_RI_USAGE 8 (0x4B),
    HID_RI_REPORT_SIZE 8 (1),
    HID_RI_REPORT_COUNT 8 (1),
    HID_RI_OUTPUT 8 ((HID_IOF_DATA ||| HID_IOF_VARIABLE ||| HID_IOF_ABSOLUTE ||| HID_IOF_NON_VOLATILE : Nat) : Int),
    HID_RI_END_COLLECTION 0 0,
    HID_RI_USAGE 8 (11),
    HID_RI_COLLECTION 8 (0x02),
    HID_RI_USAGE_PAGE 8 (0x08),
    HID_RI_USAGE 8 (0x4B),
    HID_RI_REPORT_SIZE 8 (1),
    HID_RI_REPORT_COUNT 8 (1),
    HID_RI_OUTPUT 8 ((HID_IOF_DATA ||| HID_IOF_VARIABLE ||| HID_IOF_ABSOLUTE ||| HID_IOF_NON_VOLATILE : Nat) : Int),
    HID_RI_END_COLLECTION 0 0,
    HID_RI_USAGE 8 (12),
    HID_RI_COLLECTION 8 (0x02),
    HID_RI_USAGE_PAGE 8 (0x08),
    HID_RI_USAGE 8 (0x4B),
    HID_RI_REPORT_SIZE 8 (1),
    HID_RI_REPORT_COUNT 8 (1),
    HID_RI_OUTPUT 8 ((HID_IOF_DATA ||| HID_IOF_VARIABLE ||| HID_IOF_ABSOLUTE ||| HID_IOF_NON_VOLATILE : Nat) : Int),
    HID_RI_END_COLLECTION 0 0,
    HID_RI_USAGE 8 (13),
    HID_RI_COLLECTION 8 (0x02),
    HID_RI_USAGE_PAGE 8 (0x08),
    HID_RI_USAGE 8 (0x4B),
    HID_RI_REPORT_SIZE 8 (1),
    HID_RI_REPORT_COUNT 8 (1),
    HID_RI_OUTPUT 8 ((HID_IOF_DATA ||| HID_IOF_VARIABLE ||| HID_IOF_ABSOLUTE ||| HID_IOF_NON_VOLATILE : Nat) : Int),
    HID_RI_END_COLLECTION 0 0,
    HID_RI_USAGE 8 (14),
    HID_RI_COLLECTION 8 (0x02),
    HID_RI_USAGE_PAGE 8 (0x08),
    HID_RI_USAGE 8 (0x4B),
    HID_RI_REPORT_SIZE 8 (1),
    HID_RI_REPORT_COUNT 8 (1),
    HID_RI_OUTPUT 8 ((HID_IOF_DATA ||| HID_IOF_VARIABLE ||| HID_IOF_ABSOLUTE ||| HID_IOF_NON_VOLATILE : Nat) : Int),
    HID_RI_END_COLLECTION 0 0,
    HID_RI_USAGE 8 (15),
    HID_RI_COLLECTION 8 (0x02),
    HID_RI_USAGE_PAGE 8 (0x08),
    HID_RI_USAGE 8 (0x4B),
    HID_RI_REPORT_SIZE 8 (1),
    HID_RI_REPORT_COUNT 8 (1),
    HID_RI_OUTPUT 8 ((HID_IOF_DATA ||| HID_IOF_VARIABLE ||| HID_IOF_ABSOLUTE ||| HID_IOF_NON_VOLATILE : Nat) : Int),
    HID_RI_END_COLLECTION 0 0,
    HID_RI_USAGE 8 (16),
    HID_RI_COLLECTION 8 (0x02),
    HID_RI_USAGE_PAGE 8 (0x08),
    HID_RI_USAGE 8 (0x4B),
    HID_RI_REPORT_SIZE 8 (1),
    HID_RI_REPORT_COUNT 8 (1),
    HID_RI_OUTPUT 8 ((HID_IOF_DATA ||| HID_IOF_VARIABLE ||| HID_IOF_ABSOLUTE ||| HID_IOF_NON_VOLATILE : Nat) : Int),
    HID_RI_END_COLLECTION 0 0,
    HID_RI_REPORT_SIZE 8 (8),
    HID_RI_REPORT_COUNT 8 (2),
    HID_RI_OUTPUT 8 ((HID_IOF_CONSTANT : Nat) : Int),
    HID_RI_END_COLLECTION 0 0 ]

/-- Initial bytes of `GenericReport`. -/
def GenericReport_init : List Nat := GenericReport_items.flatten

/-- Value of `sizeof(GenericReport)`: the array has one byte per initialiser. -/
def sizeof_GenericReport : Nat := GenericReport_init.length

/-! ## String descriptors (LUFA `USB_Descriptor_String_t`) -/

/-- Header shared by all descriptors; `Type_` is the C field `Type`. -/
structure USB_Descriptor_Header_t where
  Size : Nat
  Type_ : Nat
  deriving DecidableEq, Repr

/-- A string descriptor: header and the storage of the flexible array
`UnicodeString`, one 16-bit code unit per list element. -/
structure USB_Descriptor_String_t where
  Header : USB_Descriptor_Header_t
  UnicodeString : List Nat
  deriving DecidableEq, Repr

/-- Code units of the wide literal `L"s"`: the characters, then the terminating 0. -/
def wideLiteral (s : String) : List Nat := s.toList.map Char.toNat ++ [0]

/-- Value of `sizeof(L"s")` with 16-bit wide characters. -/
def sizeof_wideLiteral (s : String) : Nat := 2 * (wideLiteral s).length

/-- Expansion of `USB_STRING_DESCRIPTOR(L"s")`: the size field is
`sizeof(USB_Descriptor_Header_t) + (sizeof(L"s") - 2)`, stored in one byte, and the
array is initialised with the literal. -/
def USB_STRING_DESCRIPTOR (s : String) : USB_Descriptor_String_t :=
  { Header := { Size := (sizeof_USB_Descriptor_Header_t + (sizeof_wideLiteral s - 2)) % 256,
                Type_ := DTYPE_String },
    UnicodeString := wideLiteral s }

/-- Expansion of `USB_STRING_DESCRIPTOR_ARRAY(...)`: the size field is the header
plus two bytes per listed unit. -/
def USB_STRING_DESCRIPTOR_ARRAY (units : List Nat) : USB_Descriptor_String_t :=
  { Header := { Size := (sizeof_USB_Descriptor_Header_t + 2 * units.length) % 256,
                Type_ := DTYPE_String },
    UnicodeString := units }

def LanguageString : USB_Descriptor_String_t := USB_STRING_DESCRIPTOR_ARRAY [LANGUAGE_ID_ENG]
def ManufacturerString : USB_Descriptor_String_t := USB_STRING_DESCRIPTOR "jaesond/@progmem"
def ProductString : USB_Descriptor_String_t := USB_STRING_DESCRIPTOR "USBemani v2 (Home)"
def ProductString1P : USB_Descriptor_String_t := USB_STRING_DESCRIPTOR "USBemani v2 (1P)"
def ProductString2P : USB_Descriptor_String_t := USB_STRING_DESCRIPTOR "USBemani v2 (2P)"
/-- Initial value of the mutable object `ProductStringCustom`. -/
def ProductStringCustom_init : USB_Descriptor_String_t :=
  USB_STRING_DESCRIPTOR "Custom String Goes Here!"

/-- Code units a host receives for a string descriptor: those covered by the
size field after the two header bytes. -/
def wireUnits (d : USB_Descriptor_String_t) : List Nat :=
  d.UnicodeString.take ((d.Header.Size - sizeof_USB_Descriptor_Header_t) / 2)

/-! ## Configuration inputs and mutable state -/

/-- Modelled from the spec: `Config.h` is absent; the device settings hold the
name selector and a custom name of 25 code units (24 and a terminator). -/
structure Settings_Device_t where
  DeviceName : Nat
  CustomName : List Nat
  CustomName_length : CustomName.length = 25

/-- Modelled from the spec: `Rotary.h` is absent; the rotary settings hold the
pulses per revolution, an unsigned integer. -/
structure Settings_Rotary_t where
  RotaryPPR : Nat
  deriving DecidableEq, Repr

/-- The two global objects the resolver writes.  Array extents are part of the C
types: `GenericReport` has the 312 bytes of its initialiser and the storage of
`ProductStringCustom.UnicodeString` has the 25 units of its initialiser (24
characters and the terminator). -/
structure State where
  GenericReport : List Nat
  ProductStringCustom : USB_Descriptor_String_t
  GenericReport_length : GenericReport.length = 312
  UnicodeString_length : ProductStringCustom.UnicodeString.length = 25

set_option maxRecDepth 100000 in
/-- State at program start: both objects hold their initialisers. -/
def State.init : State :=
  { GenericReport := GenericReport_init
    ProductStringCustom := ProductStringCustom_init
    GenericReport_length := by decide
    UnicodeString_length := by decide }

/-- What a call hands back: the address and memory space written through the
pointer arguments, and the returned size. -/
structure Result where
  Address : Address
  Size : Nat
  DescriptorMemorySpace : MemorySpace
  deriving DecidableEq, Repr

/-! ## The resolver -/

/-- High byte of `wValue`, narrowed to `uint8_t`. -/
def DescriptorType (wValue : Nat) : Nat := (wValue >>> 8) % 256

/-- Low byte of `wValue`, narrowed to `uint8_t`. -/
def DescriptorNumber (wValue : Nat) : Nat := (wValue &&& 0xFF) % 256

/-- The cast `(int8_t)x`: wrap into the range -128..127. -/
def int8_t (x : Int) : Int := (x + 128) % 256 - 128

/-- Storing a value into a `uint8_t` object: reduce modulo 256. -/
def uint8_t (x : Int) : Nat := (x % 256).toNat

/-- The statement
`GenericReport[32] = (Rotary->RotaryPPR ? (int8_t)(Rotary->RotaryPPR - 1) : GenericReport[32]);` -/
def patchGenericReport (Rotary : Settings_Rotary_t) (s : State) : State :=
  { s with
    GenericReport :=
      s.GenericReport.set 32
        (if Rotary.RotaryPPR ≠ 0 then uint8_t (int8_t ((Rotary.RotaryPPR : Int) - 1))
         else s.GenericReport.getD 32 0)
    GenericReport_length := by rw [List.length_set]; exact s.GenericReport_length }

/-- The loop `for (int i = 0; i < 25; i++) UnicodeString[i] = CustomName[i];`
on the array contents. -/
def copyCustomName (CustomName UnicodeString : List Nat) : List Nat :=
  (List.range 25).foldl (fun u i => u.set i (CustomName.getD i 0)) UnicodeString

/-- The custom-name loop applied to the state. -/
def writeProductStringCustom (Device : Settings_Device_t) (s : State) : State :=
  { s with
    ProductStringCustom :=
      { s.ProductStringCustom with
        UnicodeString := copyCustomName Device.CustomName s.ProductStringCustom.UnicodeString }
    UnicodeString_length := by
      have hlen : ∀ (is u : List Nat),
          (is.foldl (fun u i => u.set i (Device.CustomName.getD i 0)) u).length = u.length := by
        intro is
        induction is with
        | nil => intro u; rfl
        | cons i is ih => intro u; rw [List.foldl_cons, ih, List.length_set]
      rw [copyCustomName, hlen]
      exact s.UnicodeString_length }

/-- Values of `Address`, `Size` and the memory space before the `switch`:
`NULL`, `NO_DESCRIPTOR` and flash. -/
def noDescriptor : Result :=
  { Address := .NULL, Size := NO_DESCRIPTOR, DescriptorMemorySpace := .MEMSPACE_FLASH }

/-- The `switch (DescriptorType)` of `CALLBACK_USB_GetDescriptor` with its nested
switches, for the values `ty` and `num` of the locals `DescriptorType` and
`DescriptorNumber`, run on the state `s1` the patch statement has left.  Every
case sets `Address` and `Size`; the two RAM cases also overwrite the memory
space. -/
def switchDescriptorType (ty num : Nat) (Device : Settings_Device_t) (s1 : State) :
    Result × State :=
  if ty = DTYPE_Device then
    ({ noDescriptor with Address := .DeviceDescriptor,
                         Size := sizeof_USB_Descriptor_Device_t }, s1)
  else if ty = DTYPE_Configuration then
    ({ noDescriptor with Address := .ConfigurationDescriptor,
                         Size := sizeof_USB_Descriptor_Configuration_t }, s1)
  else if ty = DTYPE_String then
    if num = STRING_ID_Language then
      ({ noDescriptor with Address := .LanguageString,
                           Size := LanguageString.Header.Size }, s1)
    else if num = STRING_ID_Manufacturer then
      ({ noDescriptor with Address := .ManufacturerString,
                           Size := ManufacturerString.Header.Size }, s1)
    else if num = STRING_ID_Product then
      if Device.DeviceName = N_P1 then
        ({ noDescriptor with Address := .ProductString1P,
                             Size := ProductString1P.Header.Size }, s1)
      else if Device.DeviceName = N_P2 then
        ({ noDescriptor with Address := .ProductString2P,
                             Size := ProductString2P.Header.Size }, s1)
      else if Device.DeviceName = N_Custom then
        ({ Address := .ProductStringCustom,
           Size := (writeProductStringCustom Device s1).ProductStringCustom.Header.Size,
           DescriptorMemorySpace := .MEMSPACE_RAM }, writeProductStringCustom Device s1)
      else
        ({ noDescriptor with Address := .ProductString,
                             Size := ProductString.Header.Size }, s1)
    else (noDescriptor, s1)
  else if ty = HID_DTYPE_HID then
    ({ noDescriptor with Address := .HID_GenericHID,
                         Size := sizeof_USB_HID_Descriptor_HID_t }, s1)
  else if ty = HID_DTYPE_Report then
    ({ Address := .GenericReport, Size := sizeof_GenericReport,
       DescriptorMemorySpace := .MEMSPACE_RAM }, s1)
  else (noDescriptor, s1)

set_option linter.unusedVariables false in
/-- The function `CALLBACK_USB_GetDescriptor`: the two locals, the patch
statement, then the switch.  `Device` and `Rotary` are the settings the two
`Config_Address...` calls make the globals point to; `wIndex` is not read.  The
result pairs the outputs with the state of the two written objects after the
call. -/
def CALLBACK_USB_GetDescriptor (wValue wIndex : Nat) (Device : Settings_Device_t)
    (Rotary : Settings_Rotary_t) (s : State) : Result × State :=
  switchDescriptorType (DescriptorType wValue) (DescriptorNumber wValue) Device
    (patchGenericReport Rotary s)

/-- A call as the transport layer issues it, with the settings in force. -/
structure Call where
  wValue : Nat
  wIndex : Nat
  Device : Settings_Device_t
  Rotary : Settings_Rotary_t

/-- State left by a call. -/
def Call.next (c : Call) (s : State) : State :=
  (CALLBACK_USB_GetDescriptor c.wValue c.wIndex c.Device c.Rotary s).2

/-- State after a sequence of calls, first call first. -/
def runCalls (cs : List Call) (s : State) : State :=
  cs.foldl (fun st c => c.next st) s

/-- States the program can be in: the initial one and whatever calls make of it. -/
inductive Reachable : State → Prop where
  | init : Reachable State.init
  | step (c : Call) {s : State} : Reachable s → Reachable (c.next s)

/-- Little-endian bytes of 16-bit code units. -/
def unitBytes (us : List Nat) : List Nat :=
  us.flatMap (fun u => [u % 256, (u >>> 8) % 256])

/-- Bytes of a string descriptor object in memory: header, then the array. -/
def USB_Descriptor_String_t.bytes (d : USB_Descriptor_String_t) : List Nat :=
  [d.Header.Size % 256, d.Header.Type_ % 256] ++ unitBytes d.UnicodeString

/-- Bytes the transport layer sends for a string descriptor: the first
`Header.Size` bytes of the object. -/
def USB_Descriptor_String_t.wireBytes (d : USB_Descriptor_String_t) : List Nat :=
  d.bytes.take d.Header.Size

/-- The string descriptor object an address designates, if it designates one. -/
def stringAt (a : Address) (s : State) : Option USB_Descriptor_String_t :=
  match a with
  | .LanguageString => some LanguageString
  | .ManufacturerString => some ManufacturerString
  | .ProductString => some ProductString
  | .ProductString1P => some ProductString1P
  | .ProductString2P => some ProductString2P
  | .ProductStringCustom => some s.ProductStringCustom
  | _ => none

/-- UTF-16 code units of a text without characters beyond the basic plane. -/
def utf16 (text : String) : List Nat := text.toList.map Char.toNat

/-- Device settings used in the concrete instances below: a given name selector
and the custom name "My Custom Controller 001" with its terminator. -/
def sampleDevice (DeviceName : Nat) : Settings_Device_t :=
  { DeviceName := DeviceName
    CustomName := wideLiteral "My Custom Controller 001"
    CustomName_length := by decide }

/-! ## Device and configuration descriptors -/

/-- Little-endian bytes of a 16-bit field. -/
def le16 (x : Nat) : List Nat := [x % 256, (x >>> 8) % 256]

/-- Bytes of a descriptor header: Size, Type. -/
def USB_Descriptor_Header_t.bytes (h : USB_Descriptor_Header_t) : List Nat :=
  [h.Size % 256, h.Type_ % 256]

/-- Constants that the source names and that `Descriptors.h` and the library
configuration define; both are absent, so the descriptors take them as
parameters. -/
structure BoardConstants where
  FIXED_CONTROL_ENDPOINT_SIZE : Nat
  FIXED_NUM_CONFIGURATIONS : Nat
  INTERFACE_ID_GenericHID : Nat
  GENERIC_IN_EPADDR : Nat
  GENERIC_OUT_EPADDR : Nat
  GENERIC_EPSIZE : Nat

/-- Value of `VERSION_BCD(Major, Minor, Revision)`. -/
def VERSION_BCD (Major Minor Revision : Nat) : Nat :=
  ((Major &&& 0xFF) <<< 8) ||| ((Minor &&& 0x0F) <<< 4) ||| (Revision &&& 0x0F)

def USB_CSCP_NoDeviceClass : Nat := 0x00
def USB_CSCP_NoDeviceSubclass : Nat := 0x00
def USB_CSCP_NoDeviceProtocol : Nat := 0x00
def DTYPE_Interface : Nat := 0x04
def DTYPE_Endpoint : Nat := 0x05
def USB_CONFIG_ATTR_RESERVED : Nat := 0x80
def USB_CONFIG_ATTR_SELFPOWERED : Nat := 0x40
/-- Value of `USB_CONFIG_POWER_MA(mA)`: units of 2 mA. -/
def USB_CONFIG_POWER_MA (mA : Nat) : Nat := mA >>> 1
def HID_CSCP_HIDClass : Nat := 0x03
def HID_CSCP_NonBootSubclass : Nat := 0x00
def HID_CSCP_NonBootProtocol : Nat := 0x00
def EP_TYPE_INTERRUPT : Nat := 0x03
def ENDPOINT_ATTR_NO_SYNC : Nat := 0 <<< 2
def ENDPOINT_USAGE_DATA : Nat := 0 <<< 4

/-- Fields of the library type `USB_Descriptor_Device_t`. -/
structure USB_Descriptor_Device_t where
  Header : USB_Descriptor_Header_t
  USBSpecification : Nat
  Class : Nat
  SubClass : Nat
  Protocol : Nat
  Endpoint0Size : Nat
  VendorID : Nat
  ProductID : Nat
  ReleaseNumber : Nat
  ManufacturerStrIndex : Nat
  ProductStrIndex : Nat
  SerialNumStrIndex : Nat
  NumberOfConfigurations : Nat

/-- Bytes of a device descriptor in memory, field after field. -/
def USB_Descriptor_Device_t.bytes (d : USB_Descriptor_Device_t) : List Nat :=
  d.Header.bytes ++ le16 d.USBSpecification ++ [d.Class % 256] ++ [d.SubClass % 256]
    ++ [d.Protocol % 256] ++ [d.Endpoint0Size % 256] ++ le16 d.VendorID ++ le16 d.ProductID
    ++ le16 d.ReleaseNumber ++ [d.ManufacturerStrIndex % 256] ++ [d.ProductStrIndex % 256]
    ++ [d.SerialNumStrIndex % 256] ++ [d.NumberOfConfigurations % 256]

/-- The object `DeviceDescriptor`. -/
def DeviceDescriptor (k : BoardConstants) : USB_Descriptor_Device_t :=
  { Header := { Size := sizeof_USB_Descriptor_Device_t, Type_ := DTYPE_Device }
    USBSpecification := VERSION_BCD 1 1 0
    Class := USB_CSCP_NoDeviceClass
    SubClass := USB_CSCP_NoDeviceSubclass
    Protocol := USB_CSCP_NoDeviceProtocol
    Endpoint0Size := k.FIXED_CONTROL_ENDPOINT_SIZE
    VendorID := 0x1ccf
    ProductID := 0x8048
    ReleaseNumber := VERSION_BCD 0 0 1
    ManufacturerStrIndex := STRING_ID_Manufacturer
    ProductStrIndex := STRING_ID_Product
    SerialNumStrIndex := NO_DESCRIPTOR
    NumberOfConfigurations := k.FIXED_NUM_CONFIGURATIONS }

/-- Fields of the library type `USB_Descriptor_Configuration_Header_t`. -/
structure USB_Descriptor_Configuration_Header_t where
  Header : USB_Descriptor_Header_t
  TotalConfigurationSize : Nat
  TotalInterfaces : Nat
  ConfigurationNumber : Nat
  ConfigurationStrIndex : Nat
  ConfigAttributes : Nat
  MaxPowerConsumption : Nat

def USB_Descriptor_Configuration_Header_t.bytes (d : USB_Descriptor_Configuration_Header_t) :
    List Nat :=
  d.Header.bytes ++ le16 d.TotalConfigurationSize ++ [d.TotalInterfaces % 256]
    ++ [d.ConfigurationNumber % 256] ++ [d.ConfigurationStrIndex % 256]
    ++ [d.ConfigAttributes % 256] ++ [d.MaxPowerConsumption % 256]

/-- Fields of the library type `USB_Descriptor_Interface_t`. -/
structure USB_Descriptor_Interface_t where
  Header : USB_Descriptor_Header_t
  InterfaceNumber : Nat
  AlternateSetting : Nat
  TotalEndpoints : Nat
  Class : Nat
  SubClass : Nat
  Protocol : Nat
  InterfaceStrIndex : Nat

def USB_Descriptor_Interface_t.bytes (d : USB_Descriptor_Interface_t) : List Nat :=
  d.Header.bytes ++ [d.InterfaceNumber % 256] ++ [d.AlternateSetting % 256]
    ++ [d.TotalEndpoints % 256] ++ [d.Class % 256] ++ [d.SubClass % 256] ++ [d.Protocol % 256]
    ++ [d.InterfaceStrIndex % 256]

/-- Fields of the library type `USB_HID_Descriptor_HID_t`. -/
structure USB_HID_Descriptor_HID_t where
  Header : USB_Descriptor_Header_t
  HIDSpec : Nat
  CountryCode : Nat
  TotalReportDescriptors : Nat
  HIDReportType : Nat
  HIDReportLength : Nat

def USB_HID_Descriptor_HID_t.bytes (d : USB_HID_Descriptor_HID_t) : List Nat :=
  d.Header.bytes ++ le16 d.HIDSpec ++ [d.CountryCode % 256] ++ [d.TotalReportDescriptors % 256]
    ++ [d.HIDReportType % 256] ++ le16 d.HIDReportLength

/-- Fields of the library type `USB_Descriptor_Endpoint_t`. -/
structure USB_Descriptor_Endpoint_t where
  Header : USB_Descriptor_Header_t
  EndpointAddress : Nat
  Attributes : Nat
  EndpointSize : Nat
  PollingIntervalMS : Nat

def USB_Descriptor_Endpoint_t.bytes (d : USB_Descriptor_Endpoint_t) : List Nat :=
  d.Header.bytes ++ [d.EndpointAddress % 256] ++ [d.Attributes % 256] ++ le16 d.EndpointSize
    ++ [d.PollingIntervalMS % 256]

/-- Members of `USB_Descriptor_Configuration_t`, as the initialiser of
`ConfigurationDescriptor` lists them. -/
structure USB_Descriptor_Configuration_t where
  Config : USB_Descriptor_Configuration_Header_t
  HID_Interface : USB_Descriptor_Interface_t
  HID_GenericHID : USB_HID_Descriptor_HID_t
  HID_ReportINEndpoint : USB_Descriptor_Endpoint_t
  HID_ReportOUTEndpoint : USB_Descriptor_Endpoint_t

/-- Bytes of the configuration descriptor in memory, member after member. -/
def USB_Descriptor_Configuration_t.bytes (d : USB_Descriptor_Configuration_t) : List Nat :=
  d.Config.bytes ++ d.HID_Interface.bytes ++ d.HID_GenericHID.bytes
    ++ d.HID_ReportINEndpoint.bytes ++ d.HID_ReportOUTEndpoint.bytes

/-- Offset of the member `HID_GenericHID` in `USB_Descriptor_Configuration_t`:
the members `Config` and `HID_Interface` precede it. -/
def offsetof_HID_GenericHID : Nat :=
  sizeof_USB_Descriptor_Configuration_Header_t + sizeof_USB_Descriptor_Interface_t

/-- The object `ConfigurationDescriptor`. -/
def ConfigurationDescriptor (k : BoardConstants) : USB_Descriptor_Configuration_t :=
  { Config :=
      { Header := { Size := sizeof_USB_Descriptor_Configuration_Header_t,
                    Type_ := DTYPE_Configuration }
        TotalConfigurationSize := sizeof_USB_Descriptor_Configuration_t
        TotalInterfaces := 1
        ConfigurationNumber := 1
        ConfigurationStrIndex := NO_DESCRIPTOR
        ConfigAttributes := USB_CONFIG_ATTR_RESERVED ||| USB_CONFIG_ATTR_SELFPOWERED
        MaxPowerConsumption := USB_CONFIG_POWER_MA 500 }
    HID_Interface :=
      { Header := { Size := sizeof_USB_Descriptor_Interface_t, Type_ := DTYPE_Interface }
        InterfaceNumber := k.INTERFACE_ID_GenericHID
        AlternateSetting := 0x00
        TotalEndpoints := 2
        Class := HID_CSCP_HIDClass
        SubClass := HID_CSCP_NonBootSubclass
        Protocol := HID_CSCP_NonBootProtocol
        InterfaceStrIndex := NO_DESCRIPTOR }
    HID_GenericHID :=
      { Header := { Size := sizeof_USB_HID_Descriptor_HID_t, Type_ := HID_DTYPE_HID }
        HIDSpec := VERSION_BCD 1 1 1
        CountryCode := 0x00
        TotalReportDescriptors := 1
        HIDReportType := HID_DTYPE_Report
        HIDReportLength := sizeof_GenericReport }
    HID_ReportINEndpoint :=
      { Header := { Size := sizeof_USB_Descriptor_Endpoint_t, Type_ := DTYPE_Endpoint }
        EndpointAddress := k.GENERIC_IN_EPADDR
        Attributes := EP_TYPE_INTERRUPT ||| ENDPOINT_ATTR_NO_SYNC ||| ENDPOINT_USAGE_DATA
        EndpointSize := k.GENERIC_EPSIZE
        PollingIntervalMS := 0x01 }
    HID_ReportOUTEndpoint :=
      { Header := { Size := sizeof_USB_Descriptor_Endpoint_t, Type_ := DTYPE_Endpoint }
        EndpointAddress := k.GENERIC_OUT_EPADDR
        Attributes := EP_TYPE_INTERRUPT ||| ENDPOINT_ATTR_NO_SYNC ||| ENDPOINT_USAGE_DATA
        EndpointSize := k.GENERIC_EPSIZE
        PollingIntervalMS := 0x01 } }

/-- Bytes in memory from an address on, up to the end of the object the address
points into; `HID_GenericHID` is the address of a member of
`ConfigurationDescriptor`. -/
def memoryAt (k : BoardConstants) (a : Address) (s : State) : List Nat :=
  match a with
  | .NULL => []
  | .DeviceDescriptor => (DeviceDescriptor k).bytes
  | .ConfigurationDescriptor => (ConfigurationDescriptor k).bytes
  | .HID_GenericHID => (ConfigurationDescriptor k).bytes.drop offsetof_HID_GenericHID
  | .LanguageString => LanguageString.bytes
  | .ManufacturerString => ManufacturerString.bytes
  | .ProductString => ProductString.bytes
  | .ProductString1P => ProductString1P.bytes
  | .ProductString2P => ProductString2P.bytes
  | .ProductStringCustom => s.ProductStringCustom.bytes
  | .GenericReport => s.GenericReport

/-- Bytes a result designates: `Size` bytes from `Address` on. -/
def Result.designated (k : BoardConstants) (r : Result) (s : State) : List Nat :=
  (memoryAt k r.Address s).take r.Size

/-- Parameter values used in the concrete instances below: an 8-byte control
endpoint, one configuration, interface 0, IN endpoint 1, OUT endpoint 2, 8-byte
reports. -/
def sampleConstants : BoardConstants :=
  { FIXED_CONTROL_ENDPOINT_SIZE := 8
    FIXED_NUM_CONFIGURATIONS := 1
    INTERFACE_ID_GenericHID := 0
    GENERIC_IN_EPADDR := 0x81
    GENERIC_OUT_EPADDR := 0x02
    GENERIC_EPSIZE := 8 }

/-! ## Basic facts -/

theorem State.ext_fields {s t : State} (h1 : s.GenericReport = t.GenericReport)
    (h2 : s.ProductStringCustom = t.ProductStringCustom) : s = t := by
  cases s; cases t; simp only at h1 h2; subst h1; subst h2; rfl

set_option maxRecDepth 100000 in
theorem sizeof_GenericReport_eq : sizeof_GenericReport = 312 := by decide

theorem sizeof_Device_eq : sizeof_USB_Descriptor_Device_t = 18 := by decide
theorem sizeof_Configuration_eq : sizeof_USB_Descriptor_Configuration_t = 41 := by decide
theorem sizeof_HID_eq : sizeof_USB_HID_Descriptor_HID_t = 9 := by decide
theorem LanguageString_size : LanguageString.Header.Size = 4 := by decide
theorem ManufacturerString_size : ManufacturerString.Header.Size = 34 := by decide
theorem ProductString_size : ProductString.Header.Size = 38 := by decide
theorem ProductString1P_size : ProductString1P.Header.Size = 34 := by decide
theorem ProductString2P_size : ProductString2P.Header.Size = 34 := by decide
theorem ProductStringCustom_init_size : ProductStringCustom_init.Header.Size = 50 := by decide

/-- The narrowing chain `uint8_t <- int8_t <- int` keeps the value modulo 256. -/
theorem uint8_t_int8_t (x : Int) : uint8_t (int8_t x) = (x % 256).toNat := by
  unfold uint8_t int8_t
  congr 1
  omega

theorem patched_value (n : Nat) (h : n ≠ 0) :
    uint8_t (int8_t ((n : Int) - 1)) = (n - 1) % 256 := by
  rw [uint8_t_int8_t]
  omega

theorem copy_getElem? (c : List Nat) (n : Nat) :
    ∀ (u : List Nat) (j : Nat), n ≤ u.length →
      ((List.range n).foldl (fun u i => u.set i (c.getD i 0)) u)[j]? =
        if j < n then some (c.getD j 0) else u[j]? := by
  induction n with
  | zero => intro u j _; simp
  | succ n ih =>
    intro u j hn
    rw [List.range_succ, List.foldl_append, List.foldl_cons, List.foldl_nil,
      List.getElem?_set, ih u j (by omega)]
    have hlen : ((List.range n).foldl (fun u i => u.set i (c.getD i 0)) u).length = u.length := by
      generalize List.range n = is
      induction is generalizing u with
      | nil => rfl
      | cons i is ih2 => rw [List.foldl_cons, ih2 _ (by simpa using hn), List.length_set]
    by_cases h1 : n = j
    · subst h1
      rw [if_pos rfl, hlen, if_pos (by omega), if_pos (by omega)]
    · rw [if_neg h1]
      by_cases h2 : j < n
      · rw [if_pos h2, if_pos (by omega)]
      · rw [if_neg h2, if_neg (by omega)]

/-- The loop leaves the 25 units of the custom name in a 25-unit buffer. -/
theorem copyCustomName_eq (c u : List Nat) (hc : c.length = 25) (hu : u.length = 25) :
    copyCustomName c u = c := by
  apply List.ext_getElem?
  intro j
  unfold copyCustomName
  rw [copy_getElem? c 25 u j (by omega)]
  by_cases h : j < 25
  · simp [h, List.getD_eq_getElem?_getD]
    rw [List.getElem?_eq_getElem (by omega)]; simp
  · simp only [h, if_false]
    rw [List.getElem?_eq_none (by omega), List.getElem?_eq_none (by omega)]

theorem patch_ProductStringCustom (R : Settings_Rotary_t) (s : State) :
    (patchGenericReport R s).ProductStringCustom = s.ProductStringCustom := rfl

theorem patch_byte (R : Settings_Rotary_t) (s : State) :
    (patchGenericReport R s).GenericReport[32]? =
      if R.RotaryPPR ≠ 0 then some ((R.RotaryPPR - 1) % 256) else s.GenericReport[32]? := by
  have hlen := s.GenericReport_length
  show (s.GenericReport.set 32 _)[32]? = _
  rw [List.getElem?_set, if_pos rfl, if_pos (by omega)]
  by_cases h : R.RotaryPPR ≠ 0
  · rw [if_pos h, if_pos h, patched_value _ h]
  · rw [if_neg h, if_neg h, List.getD_eq_getElem?_getD, List.getElem?_eq_getElem (by omega)]
    rfl

theorem patch_other (R : Settings_Rotary_t) (s : State) (j : Nat) (hj : j ≠ 32) :
    (patchGenericReport R s).GenericReport[j]? = s.GenericReport[j]? := by
  show (s.GenericReport.set 32 _)[j]? = _
  rw [List.getElem?_set, if_neg (by omega)]

theorem write_ProductStringCustom (D : Settings_Device_t) (s : State) :
    (writeProductStringCustom D s).ProductStringCustom =
      { Header := s.ProductStringCustom.Header, UnicodeString := D.CustomName } := by
  show USB_Descriptor_String_t.mk _ (copyCustomName _ _) = _
  rw [copyCustomName_eq _ _ D.CustomName_length s.UnicodeString_length]

theorem write_GenericReport (D : Settings_Device_t) (s : State) :
    (writeProductStringCustom D s).GenericReport = s.GenericReport := by
  dsimp only [writeProductStringCustom]

/-- The switch, case by case: the twelve paths through it, each with the values
that select it and with what it returns. -/
theorem switch_cases (ty num : Nat) (D : Settings_Device_t) (s1 : State) :
    (ty = 1 ∧ switchDescriptorType ty num D s1
        = (⟨.DeviceDescriptor, 18, .MEMSPACE_FLASH⟩, s1))
    ∨ (ty = 2 ∧ switchDescriptorType ty num D s1
        = (⟨.ConfigurationDescriptor, 41, .MEMSPACE_FLASH⟩, s1))
    ∨ ((ty = 3 ∧ num = 0) ∧ switchDescriptorType ty num D s1
        = (⟨.LanguageString, 4, .MEMSPACE_FLASH⟩, s1))
    ∨ ((ty = 3 ∧ num = 1) ∧ switchDescriptorType ty num D s1
        = (⟨.ManufacturerString, 34, .MEMSPACE_FLASH⟩, s1))
    ∨ ((ty = 3 ∧ num = 2 ∧ D.DeviceName = 1) ∧ switchDescriptorType ty num D s1
        = (⟨.ProductString1P, 34, .MEMSPACE_FLASH⟩, s1))
    ∨ ((ty = 3 ∧ num = 2 ∧ D.DeviceName = 2) ∧ switchDescriptorType ty num D s1
        = (⟨.ProductString2P, 34, .MEMSPACE_FLASH⟩, s1))
    ∨ ((ty = 3 ∧ num = 2 ∧ D.DeviceName = 3) ∧ switchDescriptorType ty num D s1
        = (⟨.ProductStringCustom, s1.ProductStringCustom.Header.Size, .MEMSPACE_RAM⟩,
            writeProductStringCustom D s1))
    ∨ ((ty = 3 ∧ num = 2 ∧ D.DeviceName ≠ 1 ∧ D.DeviceName ≠ 2 ∧ D.DeviceName ≠ 3)
        ∧ switchDescriptorType ty num D s1 = (⟨.ProductString, 38, .MEMSPACE_FLASH⟩, s1))
    ∨ ((ty = 3 ∧ num ≠ 0 ∧ num ≠ 1 ∧ num ≠ 2) ∧ switchDescriptorType ty num D s1
        = (⟨.NULL, 0, .MEMSPACE_FLASH⟩, s1))
    ∨ (ty = 0x21 ∧ switchDescriptorType ty num D s1
        = (⟨.HID_GenericHID, 9, .MEMSPACE_FLASH⟩, s1))
    ∨ (ty = 0x22 ∧ switchDescriptorType ty num D s1
        = (⟨.GenericReport, 312, .MEMSPACE_RAM⟩, s1))
    ∨ ((ty ≠ 1 ∧ ty ≠ 2 ∧ ty ≠ 3 ∧ ty ≠ 0x21 ∧ ty ≠ 0x22) ∧ switchDescriptorType ty num D s1
        = (⟨.NULL, 0, .MEMSPACE_FLASH⟩, s1)) := by
  unfold switchDescriptorType
  rw [sizeof_GenericReport_eq]
  by_cases h1 : ty = DTYPE_Device
  · rw [if_pos h1]; exact Or.inl ⟨h1, rfl⟩
  rw [if_neg h1]; refine Or.inr ?_
  by_cases h2 : ty = DTYPE_Configuration
  · rw [if_pos h2]; exact Or.inl ⟨h2, rfl⟩
  rw [if_neg h2]; refine Or.inr ?_
  by_cases h3 : ty = DTYPE_String
  · rw [if_pos h3]
    by_cases n0 : num = STRING_ID_Language
    · rw [if_pos n0]; exact Or.inl ⟨⟨h3, n0⟩, rfl⟩
    rw [if_neg n0]; refine Or.inr ?_
    by_cases n1 : num = STRING_ID_Manufacturer
    · rw [if_pos n1]; exact Or.inl ⟨⟨h3, n1⟩, rfl⟩
    rw [if_neg n1]; refine Or.inr ?_
    by_cases n2 : num = STRING_ID_Product
    · rw [if_pos n2]
      by_cases d1 : D.DeviceName = N_P1
      · rw [if_pos d1]; exact Or.inl ⟨⟨h3, n2, d1⟩, rfl⟩
      rw [if_neg d1]; refine Or.inr ?_
      by_cases d2 : D.DeviceName = N_P2
      · rw [if_pos d2]; exact Or.inl ⟨⟨h3, n2, d2⟩, rfl⟩
      rw [if_neg d2]; refine Or.inr ?_
      by_cases d3 : D.DeviceName = N_Custom
      · rw [if_pos d3]; exact Or.inl ⟨⟨h3, n2, d3⟩, rfl⟩
      rw [if_neg d3]; exact Or.inr (Or.inl ⟨⟨h3, n2, d1, d2, d3⟩, rfl⟩)
    rw [if_neg n2]
    exact Or.inr (Or.inr (Or.inr (Or.inr (Or.inl ⟨⟨h3, n0, n1, n2⟩, rfl⟩))))
  rw [if_neg h3]
  refine Or.inr (Or.inr (Or.inr (Or.inr (Or.inr (Or.inr (Or.inr ?_))))))
  by_cases h4 : ty = HID_DTYPE_HID
  · rw [if_pos h4]; exact Or.inl ⟨h4, rfl⟩
  rw [if_neg h4]; refine Or.inr ?_
  by_cases h5 : ty = HID_DTYPE_Report
  · rw [if_pos h5]; exact Or.inl ⟨h5, rfl⟩
  rw [if_neg h5]
  exact Or.inr ⟨⟨h1, h2, h3, h4, h5⟩, rfl⟩

/-- The report array after a call is the patched array, whatever was requested. -/
theorem next_GenericReport (wValue wIndex : Nat) (D : Settings_Device_t)
    (R : Settings_Rotary_t) (s : State) :
    (CALLBACK_USB_GetDescriptor wValue wIndex D R s).2.GenericReport =
      (patchGenericReport R s).GenericReport := by
  unfold CALLBACK_USB_GetDescriptor
  generalize DescriptorType wValue = ty
  generalize DescriptorNumber wValue = num
  generalize patchGenericReport R s = s1
  rcases switch_cases ty num D s1 with h | h | h | h | h | h | h | h | h | h | h | h <;>
    obtain ⟨_, e⟩ := h <;> (rw [e]; try simp only [write_GenericReport])

/-- The custom string object after a call: rewritten with the custom name on the
custom-name path, untouched on every other path. -/
theorem next_ProductStringCustom (wValue wIndex : Nat) (D : Settings_Device_t)
    (R : Settings_Rotary_t) (s : State) :
    (CALLBACK_USB_GetDescriptor wValue wIndex D R s).2.ProductStringCustom =
      if DescriptorType wValue = DTYPE_String ∧ DescriptorNumber wValue = STRING_ID_Product
          ∧ D.DeviceName = N_Custom then
        { Header := s.ProductStringCustom.Header, UnicodeString := D.CustomName }
      else s.ProductStringCustom := by
  unfold CALLBACK_USB_GetDescriptor
  simp only [DTYPE_String, STRING_ID_Product, N_Custom]
  generalize DescriptorType wValue = ty
  generalize DescriptorNumber wValue = num
  rw [← patch_ProductStringCustom R s]
  generalize patchGenericReport R s = s1
  rcases switch_cases ty num D s1 with h | h | h | h | h | h | h | h | h | h | h | h <;>
    obtain ⟨hc, e⟩ := h <;> rw [e] <;>
    first
    | (rw [if_pos hc]; exact write_ProductStringCustom D s1)
    | (rw [if_neg (by omega)])

/-- No call writes the header of the custom string object. -/
theorem next_Header (wValue wIndex : Nat) (D : Settings_Device_t)
    (R : Settings_Rotary_t) (s : State) :
    (CALLBACK_USB_GetDescriptor wValue wIndex D R s).2.ProductStringCustom.Header =
      s.ProductStringCustom.Header := by
  rw [next_ProductStringCustom]
  split_ifs <;> rfl

/-- The byte at offset 32 after a call. -/
theorem next_byte (wValue wIndex : Nat) (D : Settings_Device_t)
    (R : Settings_Rotary_t) (s : State) :
    (CALLBACK_USB_GetDescriptor wValue wIndex D R s).2.GenericReport[32]? =
      if R.RotaryPPR ≠ 0 then some ((R.RotaryPPR - 1) % 256) else s.GenericReport[32]? := by
  rw [next_GenericReport, patch_byte]

set_option maxRecDepth 100000 in
theorem init_byte : State.init.GenericReport[32]? = some 255 := by decide

theorem Reachable.header {s : State} (h : Reachable s) :
    s.ProductStringCustom.Header = ProductStringCustom_init.Header := by
  induction h with
  | init => rfl
  | step c _ ih => rw [Call.next, next_Header, ih]

/-- Patching twice under the same settings gives the array patched once. -/
theorem patch_patch (R : Settings_Rotary_t) (s t : State)
    (h : t.GenericReport = (patchGenericReport R s).GenericReport) :
    (patchGenericReport R t).GenericReport = t.GenericReport := by
  apply List.ext_getElem?
  intro j
  by_cases hj : j = 32
  · subst hj
    rw [patch_byte, h, patch_byte]
    split_ifs <;> rfl
  · rw [patch_other R t j hj]

/-- What a call returns depends on the state only through the size field of the
custom string object, and not on `wIndex` or the rotary settings. -/
theorem result_congr (wValue i1 i2 : Nat) (D : Settings_Device_t) (R1 R2 : Settings_Rotary_t)
    (s t : State)
    (h : s.ProductStringCustom.Header.Size = t.ProductStringCustom.Header.Size) :
    (CALLBACK_USB_GetDescriptor wValue i1 D R1 s).1
      = (CALLBACK_USB_GetDescriptor wValue i2 D R2 t).1 := by
  unfold CALLBACK_USB_GetDescriptor
  generalize DescriptorType wValue = ty
  generalize DescriptorNumber wValue = num
  rw [← patch_ProductStringCustom R1 s, ← patch_ProductStringCustom R2 t] at h
  generalize patchGenericReport R1 s = s1 at h ⊢
  generalize patchGenericReport R2 t = t1 at h ⊢
  rcases switch_cases ty num D s1 with a | a | a | a | a | a | a | a | a | a | a | a <;>
    obtain ⟨hc, e⟩ := a <;>
    rcases switch_cases ty num D t1 with b | b | b | b | b | b | b | b | b | b | b | b <;>
    obtain ⟨hc2, e2⟩ := b <;>
    first
    | (exfalso; omega)
    | (rw [e, e2]; try simp only [h])

/-- Every pair of a type byte and an index byte is the decomposition of a
request value. -/
theorem request_of_type_index (ty num : Nat) (h1 : ty < 256) (h2 : num < 256) :
    DescriptorType (ty * 256 + num) = ty ∧ DescriptorNumber (ty * 256 + num) = num := by
  unfold DescriptorType DescriptorNumber
  rw [Nat.shiftRight_eq_div_pow, show (0xFF : Nat) = 2 ^ 8 - 1 from rfl, Nat.and_pow_two_sub_one_eq_mod]
  constructor <;> omega

/-- What a (String, Product) request returns, by name selector. -/
theorem product_result (wValue wIndex : Nat) (D : Settings_Device_t) (R : Settings_Rotary_t)
    (s : State) (hty : DescriptorType wValue = DTYPE_String)
    (hnum : DescriptorNumber wValue = STRING_ID_Product) :
    (CALLBACK_USB_GetDescriptor wValue wIndex D R s).1 =
      if D.DeviceName = N_P1 then ⟨.ProductString1P, 34, .MEMSPACE_FLASH⟩
      else if D.DeviceName = N_P2 then ⟨.ProductString2P, 34, .MEMSPACE_FLASH⟩
      else if D.DeviceName = N_Custom then
        ⟨.ProductStringCustom, s.ProductStringCustom.Header.Size, .MEMSPACE_RAM⟩
      else ⟨.ProductString, 38, .MEMSPACE_FLASH⟩ := by
  unfold CALLBACK_USB_GetDescriptor
  rw [hty, hnum, ← patch_ProductStringCustom R s]
  simp only [DTYPE_String, STRING_ID_Product, N_P1, N_P2, N_Custom]
  generalize patchGenericReport R s = s1
  rcases switch_cases 3 2 D s1 with h | h | h | h | h | h | h | h | h | h | h | h <;>
    obtain ⟨hc, e⟩ := h <;>
    first
    | (exfalso; omega)
    | (rw [e, if_pos (by omega)])
    | (rw [e, if_neg (by omega), if_pos (by omega)])
    | (rw [e, if_neg (by omega), if_neg (by omega), if_pos (by omega)])
    | (rw [e, if_neg (by omega), if_neg (by omega), if_neg (by omega)])

/-- Every byte of the report array other than the one at offset 32 keeps its
initial value in every reachable state. -/
theorem Reachable.report_other {s : State} (h : Reachable s) (j : Nat) (hj : j ≠ 32) :
    s.GenericReport[j]? = GenericReport_init[j]? := by
  induction h with
  | init => rfl
  | step c _ ih => rw [Call.next, next_GenericReport, patch_other _ _ j hj, ih]

set_option maxRecDepth 100000 in
theorem init_bytes_31_33 :
    GenericReport_init[31]? = some 0x26 ∧ GenericReport_init[32]? = some 0xFF
      ∧ GenericReport_init[33]? = some 0x00 := by decide

/-- From a reachable state and with a nonzero PPR, the report array after a call
is the initial array with the byte at offset 32 replaced. -/
theorem report_of_reachable (wValue wIndex : Nat) (D : Settings_Device_t)
    (R : Settings_Rotary_t) (s : State) (hs : Reachable s) (hppr : R.RotaryPPR ≠ 0) :
    (CALLBACK_USB_GetDescriptor wValue wIndex D R s).2.GenericReport
      = GenericReport_init.set 32 ((R.RotaryPPR - 1) % 256) := by
  have hlen : GenericReport_init.length = 312 := sizeof_GenericReport_eq
  apply List.ext_getElem?
  intro j
  by_cases hj : j = 32
  · subst hj
    rw [next_byte, if_pos hppr, List.getElem?_set, if_pos rfl, if_pos (by omega)]
  · rw [next_GenericReport, patch_other _ _ j hj, hs.report_other j hj, List.getElem?_set,
      if_neg (by omega)]

/-- What a request of one of the four fixed non-string types returns. -/
theorem fixed_results (wValue wIndex : Nat) (D : Settings_Device_t) (R : Settings_Rotary_t)
    (s : State) :
    (DescriptorType wValue = DTYPE_Device →
        (CALLBACK_USB_GetDescriptor wValue wIndex D R s).1
          = ⟨.DeviceDescriptor, 18, .MEMSPACE_FLASH⟩)
    ∧ (DescriptorType wValue = DTYPE_Configuration →
        (CALLBACK_USB_GetDescriptor wValue wIndex D R s).1
          = ⟨.ConfigurationDescriptor, 41, .MEMSPACE_FLASH⟩)
    ∧ (DescriptorType wValue = HID_DTYPE_HID →
        (CALLBACK_USB_GetDescriptor wValue wIndex D R s).1
          = ⟨.HID_GenericHID, 9, .MEMSPACE_FLASH⟩)
    ∧ (DescriptorType wValue = HID_DTYPE_Report →
        (CALLBACK_USB_GetDescriptor wValue wIndex D R s).1
          = ⟨.GenericReport, 312, .MEMSPACE_RAM⟩)
    ∧ (DescriptorType wValue = DTYPE_String → DescriptorNumber wValue = STRING_ID_Language →
        (CALLBACK_USB_GetDescriptor wValue wIndex D R s).1
          = ⟨.LanguageString, 4, .MEMSPACE_FLASH⟩)
    ∧ (DescriptorType wValue = DTYPE_String → DescriptorNumber wValue = STRING_ID_Manufacturer →
        (CALLBACK_USB_GetDescriptor wValue wIndex D R s).1
          = ⟨.ManufacturerString, 34, .MEMSPACE_FLASH⟩) := by
  refine ⟨?_, ?_, ?_, ?_, ?_, ?_⟩ <;>
  · unfold CALLBACK_USB_GetDescriptor
    simp only [DTYPE_Device, DTYPE_Configuration, DTYPE_String, HID_DTYPE_HID, HID_DTYPE_Report,
      STRING_ID_Language, STRING_ID_Manufacturer]
    generalize DescriptorType wValue = ty
    generalize DescriptorNumber wValue = num
    generalize patchGenericReport R s = s1
    intros
    rcases switch_cases ty num D s1 with h | h | h | h | h | h | h | h | h | h | h | h <;>
      obtain ⟨hc, e⟩ := h <;> rw [e] <;> (exfalso; omega)

/-- The address of the custom string object is returned on the custom-name path
and on no other. -/
theorem address_custom_iff (wValue wIndex : Nat) (D : Settings_Device_t)
    (R : Settings_Rotary_t) (s : State) :
    (CALLBACK_USB_GetDescriptor wValue wIndex D R s).1.Address = Address.ProductStringCustom ↔
      (DescriptorType wValue = DTYPE_String ∧ DescriptorNumber wValue = STRING_ID_Product
        ∧ D.DeviceName = N_Custom) := by
  unfold CALLBACK_USB_GetDescriptor
  simp only [DTYPE_String, STRING_ID_Product, N_Custom]
  generalize DescriptorType wValue = ty
  generalize DescriptorNumber wValue = num
  generalize patchGenericReport R s = s1
  rcases switch_cases ty num D s1 with h | h | h | h | h | h | h | h | h | h | h | h <;>
    obtain ⟨hc, e⟩ := h <;> rw [e] <;>
    simp only [reduceCtorEq, true_iff, false_iff] <;> omega

/-- The memory behind an address is the same in two states that agree on the
object the address points into. -/
theorem memoryAt_congr (k : BoardConstants) (a : Address) (s t : State)
    (hrep : s.GenericReport = t.GenericReport)
    (hcus : a = Address.ProductStringCustom → s.ProductStringCustom = t.ProductStringCustom) :
    memoryAt k a s = memoryAt k a t := by
  cases a with
  | ProductStringCustom =>
    show s.ProductStringCustom.bytes = t.ProductStringCustom.bytes
    rw [hcus rfl]
  | GenericReport => exact hrep
  | _ => rfl

theorem DeviceDescriptor_bytes_length (k : BoardConstants) :
    (DeviceDescriptor k).bytes.length = 18 := rfl

theorem ConfigurationDescriptor_bytes_length (k : BoardConstants) :
    (ConfigurationDescriptor k).bytes.length = 41 := rfl

/-- The member `HID_GenericHID` occupies bytes 18..26 of the configuration
descriptor. -/
theorem HID_GenericHID_slice (k : BoardConstants) :
    ((ConfigurationDescriptor k).bytes.drop 18).take 9
      = (ConfigurationDescriptor k).HID_GenericHID.bytes := rfl

/-! ## Claims -/

/-- C1: the returned size is 0 exactly when the request matches no descriptor,
that is when the type is none of Device, Configuration, String, HID, Report, or
the type is String and the index is none of Language, Manufacturer, Product; then
the address is NULL; otherwise the size is positive and the address is not NULL.
It holds for every configuration, every request and all contents of the two
buffers; the header of the custom string object is the one of its initialiser,
which no call writes. -/
theorem C1_size_zero_iff_no_match (wValue wIndex : Nat) (Device : Settings_Device_t)
    (Rotary : Settings_Rotary_t) (s : State)
    (hs : s.ProductStringCustom.Header = ProductStringCustom_init.Header) :
    ((CALLBACK_USB_GetDescriptor wValue wIndex Device Rotary s).1.Size = 0 ↔
        (¬ (DescriptorType wValue = DTYPE_Device ∨ DescriptorType wValue = DTYPE_Configuration
              ∨ DescriptorType wValue = DTYPE_String ∨ DescriptorType wValue = HID_DTYPE_HID
              ∨ DescriptorType wValue = HID_DTYPE_Report)
          ∨ (DescriptorType wValue = DTYPE_String
              ∧ ¬ (DescriptorNumber wValue = STRING_ID_Language
                    ∨ DescriptorNumber wValue = STRING_ID_Manufacturer
                    ∨ DescriptorNumber wValue = STRING_ID_Product))))
    ∧ ((CALLBACK_USB_GetDescriptor wValue wIndex Device Rotary s).1.Size = 0 →
        (CALLBACK_USB_GetDescriptor wValue wIndex Device Rotary s).1.Address = Address.NULL)
    ∧ ((CALLBACK_USB_GetDescriptor wValue wIndex Device Rotary s).1.Size ≠ 0 →
        0 < (CALLBACK_USB_GetDescriptor wValue wIndex Device Rotary s).1.Size
          ∧ (CALLBACK_USB_GetDescriptor wValue wIndex Device Rotary s).1.Address
              ≠ Address.NULL) := by
  have hsz : (patchGenericReport Rotary s).ProductStringCustom.Header.Size = 50 := by
    rw [patch_ProductStringCustom, hs]; decide
  unfold CALLBACK_USB_GetDescriptor
  simp only [DTYPE_Device, DTYPE_Configuration, DTYPE_String, HID_DTYPE_HID, HID_DTYPE_Report,
    STRING_ID_Language, STRING_ID_Manufacturer, STRING_ID_Product]
  generalize DescriptorType wValue = ty
  generalize DescriptorNumber wValue = num
  generalize patchGenericReport Rotary s = s1 at hsz
  rcases switch_cases ty num Device s1 with h | h | h | h | h | h | h | h | h | h | h | h <;>
    obtain ⟨hc, e⟩ := h <;> rw [e] <;> simp only [hsz] <;>
    refine ⟨by first | omega | (rw [true_iff]; omega), by simp, by simp⟩

/-- Instance of C1 at the initial state: a Product string request with the custom
name selected. -/
theorem C1_size_zero_iff_no_match_witness :
    State.init.ProductStringCustom.Header = ProductStringCustom_init.Header
    ∧ (CALLBACK_USB_GetDescriptor 0x0302 0 (sampleDevice N_Custom) ⟨50⟩ State.init).1.Size ≠ 0
    ∧ (CALLBACK_USB_GetDescriptor 0x0302 0 (sampleDevice N_Custom) ⟨50⟩ State.init).1.Address
        ≠ Address.NULL :=
  have h := C1_size_zero_iff_no_match 0x0302 0 (sampleDevice N_Custom) ⟨50⟩ State.init rfl
  have hne : (CALLBACK_USB_GetDescriptor 0x0302 0 (sampleDevice N_Custom) ⟨50⟩ State.init).1.Size
      ≠ 0 := by decide
  ⟨rfl, hne, (h.2.2 hne).2⟩

/-- C2: for every request that matches a fixed catalog entry, and every
configuration and state, the returned size is the structural byte length of the
entry: Device 18, Configuration 41 = 9+9+9+7+7, HID 9, Report 312 (the length of
`GenericReport`), Language 4, Manufacturer 34, Product 38 for a selector other than
Player1, Player2, Custom, and 34 for Player1 and for Player2; each string size is
2 header bytes plus 2 bytes per code unit of the literal without its terminator. -/
theorem C2_catalog_sizes (wValue wIndex : Nat) (Device : Settings_Device_t)
    (Rotary : Settings_Rotary_t) (s : State) :
    (DescriptorType wValue = DTYPE_Device →
        (CALLBACK_USB_GetDescriptor wValue wIndex Device Rotary s).1.Size = 18)
    ∧ (DescriptorType wValue = DTYPE_Configuration →
        (CALLBACK_USB_GetDescriptor wValue wIndex Device Rotary s).1.Size = 41)
    ∧ (DescriptorType wValue = HID_DTYPE_HID →
        (CALLBACK_USB_GetDescriptor wValue wIndex Device Rotary s).1.Size = 9)
    ∧ (DescriptorType wValue = HID_DTYPE_Report →
        (CALLBACK_USB_GetDescriptor wValue wIndex Device Rotary s).1.Size = 312)
    ∧ (DescriptorType wValue = DTYPE_String → DescriptorNumber wValue = STRING_ID_Language →
        (CALLBACK_USB_GetDescriptor wValue wIndex Device Rotary s).1.Size = 4)
    ∧ (DescriptorType wValue = DTYPE_String → DescriptorNumber wValue = STRING_ID_Manufacturer →
        (CALLBACK_USB_GetDescriptor wValue wIndex Device Rotary s).1.Size = 34)
    ∧ (DescriptorType wValue = DTYPE_String → DescriptorNumber wValue = STRING_ID_Product →
        Device.DeviceName ≠ N_P1 → Device.DeviceName ≠ N_P2 → Device.DeviceName ≠ N_Custom →
        (CALLBACK_USB_GetDescriptor wValue wIndex Device Rotary s).1.Size = 38)
    ∧ (DescriptorType wValue = DTYPE_String → DescriptorNumber wValue = STRING_ID_Product →
        Device.DeviceName = N_P1 →
        (CALLBACK_USB_GetDescriptor wValue wIndex Device Rotary s).1.Size = 34)
    ∧ (DescriptorType wValue = DTYPE_String → DescriptorNumber wValue = STRING_ID_Product →
        Device.DeviceName = N_P2 →
        (CALLBACK_USB_GetDescriptor wValue wIndex Device Rotary s).1.Size = 34)
    ∧ (sizeof_USB_Descriptor_Device_t = 18
        ∧ sizeof_USB_Descriptor_Configuration_t = 9 + 9 + 9 + 7 + 7
        ∧ sizeof_USB_HID_Descriptor_HID_t = 9
        ∧ GenericReport_init.length = 312
        ∧ LanguageString.Header.Size = 2 + 2 * [LANGUAGE_ID_ENG].length
        ∧ ManufacturerString.Header.Size = 2 + 2 * (utf16 "jaesond/@progmem").length
        ∧ ProductString.Header.Size = 2 + 2 * (utf16 "USBemani v2 (Home)").length
        ∧ ProductString1P.Header.Size = 2 + 2 * (utf16 "USBemani v2 (1P)").length
        ∧ ProductString2P.Header.Size = 2 + 2 * (utf16 "USBemani v2 (2P)").length) := by
  have hlen : GenericReport_init.length = 312 := sizeof_GenericReport_eq
  refine ⟨?_, ?_, ?_, ?_, ?_, ?_, ?_, ?_, ?_, by decide, by decide, by decide, hlen,
    by decide, by decide, by decide, by decide, by decide⟩ <;>
  · unfold CALLBACK_USB_GetDescriptor
    simp only [DTYPE_Device, DTYPE_Configuration, DTYPE_String, HID_DTYPE_HID, HID_DTYPE_Report,
      STRING_ID_Language, STRING_ID_Manufacturer, STRING_ID_Product, N_P1, N_P2, N_Custom]
    generalize DescriptorType wValue = ty
    generalize DescriptorNumber wValue = num
    generalize patchGenericReport Rotary s = s1
    intros
    rcases switch_cases ty num Device s1 with h | h | h | h | h | h | h | h | h | h | h | h <;>
      obtain ⟨hc, e⟩ := h <;> rw [e] <;> first | rfl | omega

/-- Instance of C2: with Player1 selected, a Product string request returns 34. -/
theorem C2_catalog_sizes_witness :
    (CALLBACK_USB_GetDescriptor 0x0302 0 (sampleDevice N_P1) ⟨50⟩ State.init).1.Size = 34 :=
  (C2_catalog_sizes 0x0302 0 (sampleDevice N_P1) ⟨50⟩ State.init).2.2.2.2.2.2.2.1
    (by decide) (by decide) (by decide)

/-- C3: for a (String, Product) request the descriptor is chosen by the name
selector alone: Player1 gives the fixed descriptor that encodes
"USBemani v2 (1P)" (size 34), Player2 the one that encodes "USBemani v2 (2P)",
Custom the custom-name buffer, and every other selector value the fixed generic
descriptor that encodes "USBemani v2 (Home)"; two such requests under the same
selector return the same address whatever else differs. -/
theorem C3_product_string_by_variant (wValue wIndex : Nat) (Device : Settings_Device_t)
    (Rotary : Settings_Rotary_t) (s : State)
    (hty : DescriptorType wValue = DTYPE_String)
    (hnum : DescriptorNumber wValue = STRING_ID_Product) :
    (Device.DeviceName = N_P1 →
        (CALLBACK_USB_GetDescriptor wValue wIndex Device Rotary s).1.Address
          = Address.ProductString1P
        ∧ (CALLBACK_USB_GetDescriptor wValue wIndex Device Rotary s).1.Size = 34
        ∧ (stringAt (CALLBACK_USB_GetDescriptor wValue wIndex Device Rotary s).1.Address
            (CALLBACK_USB_GetDescriptor wValue wIndex Device Rotary s).2).map
              USB_Descriptor_String_t.wireBytes
            = some (34 :: DTYPE_String :: unitBytes (utf16 "USBemani v2 (1P)")))
    ∧ (Device.DeviceName = N_P2 →
        (CALLBACK_USB_GetDescriptor wValue wIndex Device Rotary s).1.Address
          = Address.ProductString2P
        ∧ (stringAt (CALLBACK_USB_GetDescriptor wValue wIndex Device Rotary s).1.Address
            (CALLBACK_USB_GetDescriptor wValue wIndex Device Rotary s).2).map
              USB_Descriptor_String_t.wireBytes
            = some (34 :: DTYPE_String :: unitBytes (utf16 "USBemani v2 (2P)")))
    ∧ (Device.DeviceName = N_Custom →
        (CALLBACK_USB_GetDescriptor wValue wIndex Device Rotary s).1.Address
          = Address.ProductStringCustom
        ∧ stringAt (CALLBACK_USB_GetDescriptor wValue wIndex Device Rotary s).1.Address
            (CALLBACK_USB_GetDescriptor wValue wIndex Device Rotary s).2
            = some (CALLBACK_USB_GetDescriptor wValue wIndex Device Rotary s).2.ProductStringCustom)
    ∧ (Device.DeviceName ≠ N_P1 → Device.DeviceName ≠ N_P2 → Device.DeviceName ≠ N_Custom →
        (CALLBACK_USB_GetDescriptor wValue wIndex Device Rotary s).1.Address
          = Address.ProductString
        ∧ (stringAt (CALLBACK_USB_GetDescriptor wValue wIndex Device Rotary s).1.Address
            (CALLBACK_USB_GetDescriptor wValue wIndex Device Rotary s).2).map
              USB_Descriptor_String_t.wireBytes
            = some (38 :: DTYPE_String :: unitBytes (utf16 "USBemani v2 (Home)")))
    ∧ (∀ (wValue2 wIndex2 : Nat) (Device2 : Settings_Device_t) (Rotary2 : Settings_Rotary_t)
        (s2 : State), DescriptorType wValue2 = DTYPE_String →
        DescriptorNumber wValue2 = STRING_ID_Product → Device2.DeviceName = Device.DeviceName →
        (CALLBACK_USB_GetDescriptor wValue2 wIndex2 Device2 Rotary2 s2).1.Address
          = (CALLBACK_USB_GetDescriptor wValue wIndex Device Rotary s).1.Address) := by
  have hr := product_result wValue wIndex Device Rotary s hty hnum
  refine ⟨?_, ?_, ?_, ?_, ?_⟩
  · intro h
    rw [if_pos h] at hr
    rw [hr]
    exact ⟨rfl, rfl, show some ProductString1P.wireBytes = _ by decide⟩
  · intro h
    have h1 : Device.DeviceName ≠ N_P1 := by rw [h]; decide
    rw [if_neg h1, if_pos h] at hr
    rw [hr]
    exact ⟨rfl, show some ProductString2P.wireBytes = _ by decide⟩
  · intro h
    have h1 : Device.DeviceName ≠ N_P1 := by rw [h]; decide
    have h2 : Device.DeviceName ≠ N_P2 := by rw [h]; decide
    rw [if_neg h1, if_neg h2, if_pos h] at hr
    rw [hr]
    exact ⟨rfl, rfl⟩
  · intro h1 h2 h3
    rw [if_neg h1, if_neg h2, if_neg h3] at hr
    rw [hr]
    exact ⟨rfl, show some ProductString.wireBytes = _ by decide⟩
  · intro v2 i2 D2 R2 s2 h1 h2 h3
    rw [hr, product_result v2 i2 D2 R2 s2 h1 h2, h3]
    split_ifs <;> rfl

/-- Instance of C3: a Product string request with Player1 selected is answered
with `ProductString1P`. -/
theorem C3_product_string_by_variant_witness :
    (CALLBACK_USB_GetDescriptor 0x0302 0 (sampleDevice N_P1) ⟨50⟩ State.init).1.Address
      = Address.ProductString1P :=
  ((C3_product_string_by_variant 0x0302 0 (sampleDevice N_P1) ⟨50⟩ State.init
    (by decide) (by decide)).1 (by decide)).1

/-- C4: the memory space written by a call is RAM exactly when the request is of
type Report, whatever the index, or is (String, Product) while the name selector
is Custom; in every other case, the requests that match nothing among them, it is
flash. -/
theorem C4_memory_space (wValue wIndex : Nat) (Device : Settings_Device_t)
    (Rotary : Settings_Rotary_t) (s : State) :
    ((CALLBACK_USB_GetDescriptor wValue wIndex Device Rotary s).1.DescriptorMemorySpace
        = MemorySpace.MEMSPACE_RAM ↔
      (DescriptorType wValue = HID_DTYPE_Report
        ∨ (DescriptorType wValue = DTYPE_String ∧ DescriptorNumber wValue = STRING_ID_Product
            ∧ Device.DeviceName = N_Custom)))
    ∧ ((CALLBACK_USB_GetDescriptor wValue wIndex Device Rotary s).1.DescriptorMemorySpace
        = MemorySpace.MEMSPACE_FLASH ↔
      ¬ (DescriptorType wValue = HID_DTYPE_Report
        ∨ (DescriptorType wValue = DTYPE_String ∧ DescriptorNumber wValue = STRING_ID_Product
            ∧ Device.DeviceName = N_Custom)))
    ∧ ((¬ (DescriptorType wValue = DTYPE_Device ∨ DescriptorType wValue = DTYPE_Configuration
              ∨ DescriptorType wValue = DTYPE_String ∨ DescriptorType wValue = HID_DTYPE_HID
              ∨ DescriptorType wValue = HID_DTYPE_Report)
          ∨ (DescriptorType wValue = DTYPE_String
              ∧ ¬ (DescriptorNumber wValue = STRING_ID_Language
                    ∨ DescriptorNumber wValue = STRING_ID_Manufacturer
                    ∨ DescriptorNumber wValue = STRING_ID_Product))) →
        (CALLBACK_USB_GetDescriptor wValue wIndex Device Rotary s).1.DescriptorMemorySpace
          = MemorySpace.MEMSPACE_FLASH) := by
  unfold CALLBACK_USB_GetDescriptor
  simp only [DTYPE_Device, DTYPE_Configuration, DTYPE_String, HID_DTYPE_HID, HID_DTYPE_Report,
    STRING_ID_Language, STRING_ID_Manufacturer, STRING_ID_Product, N_Custom]
  generalize DescriptorType wValue = ty
  generalize DescriptorNumber wValue = num
  generalize patchGenericReport Rotary s = s1
  rcases switch_cases ty num Device s1 with h | h | h | h | h | h | h | h | h | h | h | h <;>
    obtain ⟨hc, e⟩ := h <;> rw [e] <;>
    simp only [reduceCtorEq, true_iff, false_iff, implies_true, imp_false, and_true] <;> omega

/-- C5: for a pulses-per-revolution value N with 1 <= N <= 256, whatever the
request and the prior state, the byte `GenericReport[32]` after the call is N - 1,
an unsigned byte; and a call with PPR 50 followed by a call with PPR 75 leaves the
byte at 49 and then at 74. -/
theorem C5_logical_maximum_byte (N : Nat) (h1 : 1 ≤ N) (h2 : N ≤ 256) (wValue wIndex : Nat)
    (Device : Settings_Device_t) (s : State) :
    (CALLBACK_USB_GetDescriptor wValue wIndex Device ⟨N⟩ s).2.GenericReport[32]? = some (N - 1)
    ∧ N - 1 < 256
    ∧ (CALLBACK_USB_GetDescriptor wValue wIndex Device ⟨50⟩ s).2.GenericReport[32]? = some 49
    ∧ (∀ (wValue2 wIndex2 : Nat) (Device2 : Settings_Device_t),
        (CALLBACK_USB_GetDescriptor wValue2 wIndex2 Device2 ⟨75⟩
          (CALLBACK_USB_GetDescriptor wValue wIndex Device ⟨50⟩ s).2).2.GenericReport[32]?
            = some 74) := by
  refine ⟨?_, by omega, ?_, ?_⟩
  · rw [next_byte]
    show (if N ≠ 0 then some ((N - 1) % 256) else _) = _
    rw [if_pos (by omega)]
    congr 1
    omega
  · rw [next_byte]; rfl
  · intro v2 i2 D2
    rw [next_byte]; rfl

/-- Instance of C5 at the initial state: Report requests with PPR 50, then 75. -/
theorem C5_logical_maximum_byte_witness :
    (1 ≤ 50 ∧ 50 ≤ 256)
    ∧ (CALLBACK_USB_GetDescriptor 0x2200 0 (sampleDevice 0) ⟨50⟩ State.init).2.GenericReport[32]?
        = some 49
    ∧ (CALLBACK_USB_GetDescriptor 0x2200 0 (sampleDevice 0) ⟨75⟩
        (CALLBACK_USB_GetDescriptor 0x2200 0 (sampleDevice 0) ⟨50⟩
          State.init).2).2.GenericReport[32]? = some 74 :=
  have h := C5_logical_maximum_byte 50 (by decide) (by decide) 0x2200 0 (sampleDevice 0) State.init
  ⟨⟨by decide, by decide⟩, h.1, h.2.2.2 0x2200 0 (sampleDevice 0)⟩

/-- C6: with pulses per revolution 0, whatever the request and the prior state,
`GenericReport[32]` after the call is what it was before the call, and so it is
after any number of calls that all have PPR 0. -/
theorem C6_zero_ppr_keeps_byte (cs : List Call) (h : ∀ c ∈ cs, c.Rotary.RotaryPPR = 0)
    (s : State) :
    (∀ (wValue wIndex : Nat) (Device : Settings_Device_t),
        (CALLBACK_USB_GetDescriptor wValue wIndex Device ⟨0⟩ s).2.GenericReport[32]?
          = s.GenericReport[32]?)
    ∧ (runCalls cs s).GenericReport[32]? = s.GenericReport[32]? := by
  constructor
  · intro v i D
    rw [next_byte]; rfl
  · unfold runCalls
    induction cs generalizing s with
    | nil => rfl
    | cons c cs ih =>
      rw [List.foldl_cons, ih (fun c1 hc1 => h c1 (List.mem_cons_of_mem _ hc1)), Call.next,
        next_byte, if_neg (by rw [h c (List.mem_cons_self _ _)]; exact fun hne => hne rfl)]

/-- Instance of C6: three calls with PPR 0 from the initial state leave the byte
at its initial value 255. -/
theorem C6_zero_ppr_keeps_byte_witness :
    (runCalls [⟨0x2200, 0, sampleDevice 0, ⟨0⟩⟩, ⟨0x0100, 0, sampleDevice N_Custom, ⟨0⟩⟩,
        ⟨0x0302, 0, sampleDevice N_Custom, ⟨0⟩⟩] State.init).GenericReport[32]? = some 255 :=
  (C6_zero_ppr_keeps_byte [⟨0x2200, 0, sampleDevice 0, ⟨0⟩⟩, ⟨0x0100, 0, sampleDevice N_Custom, ⟨0⟩⟩,
      ⟨0x0302, 0, sampleDevice N_Custom, ⟨0⟩⟩]
    (by intro c hc; simp only [List.mem_cons, List.mem_singleton, List.not_mem_nil, or_false] at hc
        rcases hc with rfl | rfl | rfl <;> rfl) State.init).2.trans init_byte

/-- C7, as stated, fails: a Device request made while the name selector is
Custom and the custom name is "My Custom Controller 001" leaves the custom string
buffer with the initial text "Custom String Goes Here!", not with the custom
name. -/
theorem C7_counterexample :
    (CALLBACK_USB_GetDescriptor 0x0100 0 (sampleDevice N_Custom) ⟨50⟩
        State.init).2.ProductStringCustom.UnicodeString = wideLiteral "Custom String Goes Here!"
    ∧ (CALLBACK_USB_GetDescriptor 0x0100 0 (sampleDevice N_Custom) ⟨50⟩
        State.init).2.ProductStringCustom.UnicodeString ≠ (sampleDevice N_Custom).CustomName := by
  rw [next_ProductStringCustom, if_neg (by decide)]
  decide

/-- C7, amended: the report template is patched for the current PPR on every
call, whatever is requested; the custom string buffer is rebuilt only by a
(String, Product) request made while the name selector is Custom, after which it
holds the 25 code units of the current custom name, and every other request
leaves the custom string object as it was. -/
theorem C7_refresh_amended (wValue wIndex : Nat) (Device : Settings_Device_t)
    (Rotary : Settings_Rotary_t) (s : State) :
    ((CALLBACK_USB_GetDescriptor wValue wIndex Device Rotary s).2.GenericReport[32]? =
        if Rotary.RotaryPPR ≠ 0 then some ((Rotary.RotaryPPR - 1) % 256)
        else s.GenericReport[32]?)
    ∧ ((DescriptorType wValue = DTYPE_String ∧ DescriptorNumber wValue = STRING_ID_Product
          ∧ Device.DeviceName = N_Custom) →
        (CALLBACK_USB_GetDescriptor wValue wIndex Device Rotary s).2.ProductStringCustom.UnicodeString
          = Device.CustomName
        ∧ (CALLBACK_USB_GetDescriptor wValue wIndex Device Rotary
            s).2.ProductStringCustom.UnicodeString.length = 25)
    ∧ (¬ (DescriptorType wValue = DTYPE_String ∧ DescriptorNumber wValue = STRING_ID_Product
          ∧ Device.DeviceName = N_Custom) →
        (CALLBACK_USB_GetDescriptor wValue wIndex Device Rotary s).2.ProductStringCustom
          = s.ProductStringCustom) := by
  refine ⟨next_byte _ _ _ _ _, ?_, ?_⟩
  · intro h
    rw [next_ProductStringCustom, if_pos h]
    exact ⟨rfl, Device.CustomName_length⟩
  · intro h
    rw [next_ProductStringCustom, if_neg h]

/-- Instance of the amended C7: the custom-name request rebuilds the buffer, the
Device request leaves it alone. -/
theorem C7_refresh_amended_witness :
    (CALLBACK_USB_GetDescriptor 0x0302 0 (sampleDevice N_Custom) ⟨50⟩
        State.init).2.ProductStringCustom.UnicodeString = (sampleDevice N_Custom).CustomName
    ∧ (CALLBACK_USB_GetDescriptor 0x0100 0 (sampleDevice N_Custom) ⟨50⟩
        State.init).2.ProductStringCustom = State.init.ProductStringCustom :=
  ⟨((C7_refresh_amended 0x0302 0 (sampleDevice N_Custom) ⟨50⟩ State.init).2.1 (by decide)).1,
   (C7_refresh_amended 0x0100 0 (sampleDevice N_Custom) ⟨50⟩ State.init).2.2 (by decide)⟩

/-- C8, as stated, fails: at the initial state a (String, Product) request with
Custom selected returns size 50, which is also the header size field after the
call, while header length plus the byte length of the 25 copied code units is 52;
the 24 code units the returned size covers are not the 25 supplied. -/
theorem C8_counterexample :
    (CALLBACK_USB_GetDescriptor 0x0302 0 (sampleDevice N_Custom) ⟨50⟩ State.init).1.Size = 50
    ∧ (CALLBACK_USB_GetDescriptor 0x0302 0 (sampleDevice N_Custom) ⟨50⟩
        State.init).2.ProductStringCustom.Header.Size = 50
    ∧ (CALLBACK_USB_GetDescriptor 0x0302 0 (sampleDevice N_Custom) ⟨50⟩ State.init).1.Size
        ≠ sizeof_USB_Descriptor_Header_t
          + 2 * (CALLBACK_USB_GetDescriptor 0x0302 0 (sampleDevice N_Custom) ⟨50⟩
              State.init).2.ProductStringCustom.UnicodeString.length
    ∧ wireUnits (CALLBACK_USB_GetDescriptor 0x0302 0 (sampleDevice N_Custom) ⟨50⟩
        State.init).2.ProductStringCustom ≠ (sampleDevice N_Custom).CustomName := by
  refine ⟨by decide, by decide, ?_, ?_⟩
  · rw [next_ProductStringCustom, if_pos (by decide)]
    decide
  · rw [next_ProductStringCustom, if_pos (by decide)]
    decide

/-- C8, amended: for a (String, Product) request with Custom selected, for every
custom name of 25 code units, the custom string buffer returned holds exactly
those 25 units after the call; its header is not written, so the size field, which
is the returned size, is what it was before the call: with the header of the
initialiser that is 50, the header length plus two bytes for each of the first 24
code units, and the descriptor sent carries those 24 units. -/
theorem C8_custom_name_amended (wValue wIndex : Nat) (Device : Settings_Device_t)
    (Rotary : Settings_Rotary_t) (s : State)
    (hty : DescriptorType wValue = DTYPE_String)
    (hnum : DescriptorNumber wValue = STRING_ID_Product)
    (hname : Device.DeviceName = N_Custom) :
    (CALLBACK_USB_GetDescriptor wValue wIndex Device Rotary s).1.Address
        = Address.ProductStringCustom
    ∧ (CALLBACK_USB_GetDescriptor wValue wIndex Device Rotary s).2.ProductStringCustom.UnicodeString
        = Device.CustomName
    ∧ (CALLBACK_USB_GetDescriptor wValue wIndex Device Rotary s).2.ProductStringCustom.Header
        = s.ProductStringCustom.Header
    ∧ (CALLBACK_USB_GetDescriptor wValue wIndex Device Rotary s).1.Size
        = (CALLBACK_USB_GetDescriptor wValue wIndex Device Rotary s).2.ProductStringCustom.Header.Size
    ∧ (s.ProductStringCustom.Header = ProductStringCustom_init.Header →
        (CALLBACK_USB_GetDescriptor wValue wIndex Device Rotary s).1.Size = 50
        ∧ 50 = sizeof_USB_Descriptor_Header_t + 2 * 24
        ∧ wireUnits (CALLBACK_USB_GetDescriptor wValue wIndex Device Rotary s).2.ProductStringCustom
            = Device.CustomName.take 24) := by
  have hpost := next_ProductStringCustom wValue wIndex Device Rotary s
  rw [if_pos ⟨hty, hnum, hname⟩] at hpost
  have hr := product_result wValue wIndex Device Rotary s hty hnum
  have h1 : Device.DeviceName ≠ N_P1 := by rw [hname]; decide
  have h2 : Device.DeviceName ≠ N_P2 := by rw [hname]; decide
  rw [if_neg h1, if_neg h2, if_pos hname] at hr
  have hsize : (CALLBACK_USB_GetDescriptor wValue wIndex Device Rotary s).1.Size
      = s.ProductStringCustom.Header.Size := by rw [hr]
  have haddr : (CALLBACK_USB_GetDescriptor wValue wIndex Device Rotary s).1.Address
      = Address.ProductStringCustom := by rw [hr]
  refine ⟨haddr, ?_, ?_, ?_, ?_⟩
  · rw [hpost]
  · rw [hpost]
  · rw [hsize, hpost]
  · intro hs
    have h50 : s.ProductStringCustom.Header.Size = 50 := by rw [hs]; decide
    refine ⟨by rw [hsize, h50], by decide, ?_⟩
    rw [hpost]
    unfold wireUnits
    show Device.CustomName.take ((s.ProductStringCustom.Header.Size
      - sizeof_USB_Descriptor_Header_t) / 2) = _
    rw [h50]
    rfl

/-- Instance of the amended C8 at the initial state. -/
theorem C8_custom_name_amended_witness :
    (CALLBACK_USB_GetDescriptor 0x0302 0 (sampleDevice N_Custom) ⟨50⟩
        State.init).2.ProductStringCustom.UnicodeString = (sampleDevice N_Custom).CustomName
    ∧ (CALLBACK_USB_GetDescriptor 0x0302 0 (sampleDevice N_Custom) ⟨50⟩ State.init).1.Size = 50 :=
  have h := C8_custom_name_amended 0x0302 0 (sampleDevice N_Custom) ⟨50⟩ State.init
    (by decide) (by decide) (by decide)
  ⟨h.2.1, (h.2.2.2.2 rfl).1⟩

/-- C9: under an unchanged configuration a call is idempotent: for every
configuration, request and prior state, a second call right after the first
returns the same address, size and memory space, and leaves the report template
and the custom string object as the first call left them. -/
theorem C9_idempotent (wValue wIndex : Nat) (Device : Settings_Device_t)
    (Rotary : Settings_Rotary_t) (s : State) :
    (CALLBACK_USB_GetDescriptor wValue wIndex Device Rotary
        (CALLBACK_USB_GetDescriptor wValue wIndex Device Rotary s).2).1
      = (CALLBACK_USB_GetDescriptor wValue wIndex Device Rotary s).1
    ∧ (CALLBACK_USB_GetDescriptor wValue wIndex Device Rotary
        (CALLBACK_USB_GetDescriptor wValue wIndex Device Rotary s).2).2
      = (CALLBACK_USB_GetDescriptor wValue wIndex Device Rotary s).2 := by
  constructor
  · exact result_congr wValue wIndex wIndex Device Rotary Rotary _ s (by rw [next_Header])
  · apply State.ext_fields
    · rw [next_GenericReport]
      exact patch_patch Rotary s _ (next_GenericReport wValue wIndex Device Rotary s)
    · simp only [next_ProductStringCustom]
      split_ifs <;> rfl

/-- C10: the index matters only for String requests and `wIndex` never matters:
a call gives the same outputs and the same state for any two values of `wIndex`,
and for any two request values whose type byte is the same and is not String. -/
theorem C10_index_irrelevant (wValue wIndex : Nat) (Device : Settings_Device_t)
    (Rotary : Settings_Rotary_t) (s : State) :
    (∀ wIndex2 : Nat,
        CALLBACK_USB_GetDescriptor wValue wIndex2 Device Rotary s
          = CALLBACK_USB_GetDescriptor wValue wIndex Device Rotary s)
    ∧ (∀ wValue2 wIndex2 : Nat,
        DescriptorType wValue2 = DescriptorType wValue → DescriptorType wValue ≠ DTYPE_String →
        CALLBACK_USB_GetDescriptor wValue2 wIndex2 Device Rotary s
          = CALLBACK_USB_GetDescriptor wValue wIndex Device Rotary s) := by
  constructor
  · intro i2
    unfold CALLBACK_USB_GetDescriptor
    rfl
  · intro v2 i2 hty hns
    unfold CALLBACK_USB_GetDescriptor
    rw [hty]
    generalize DescriptorType wValue = ty at hns
    generalize DescriptorNumber wValue = num
    generalize DescriptorNumber v2 = num2
    generalize patchGenericReport Rotary s = s1
    unfold switchDescriptorType
    rw [if_neg hns, if_neg hns]

/-- Instance of C10: Device requests with index bytes 5 and 255 and different
`wIndex` agree. -/
theorem C10_index_irrelevant_witness :
    CALLBACK_USB_GetDescriptor 0x01FF 0x0409 (sampleDevice N_Custom) ⟨50⟩ State.init
      = CALLBACK_USB_GetDescriptor 0x0105 0 (sampleDevice N_Custom) ⟨50⟩ State.init :=
  (C10_index_irrelevant 0x0105 0 (sampleDevice N_Custom) ⟨50⟩ State.init).2 0x01FF 0x0409
    (by decide) (by decide)

/-- C11: the patch touches one byte only: for every configuration, request and
prior state the report template still has 312 bytes after the call and every
byte other than the one at offset 32 has the value it had before the call; the
byte at offset 33, the high byte of the 16-bit logical maximum, is among them. -/
theorem C11_patch_one_byte (wValue wIndex : Nat) (Device : Settings_Device_t)
    (Rotary : Settings_Rotary_t) (s : State) :
    (CALLBACK_USB_GetDescriptor wValue wIndex Device Rotary s).2.GenericReport.length = 312
    ∧ s.GenericReport.length = 312
    ∧ (∀ j : Nat, j ≠ 32 →
        (CALLBACK_USB_GetDescriptor wValue wIndex Device Rotary s).2.GenericReport[j]?
          = s.GenericReport[j]?)
    ∧ (CALLBACK_USB_GetDescriptor wValue wIndex Device Rotary s).2.GenericReport[33]?
        = s.GenericReport[33]? := by
  refine ⟨State.GenericReport_length _, s.GenericReport_length, ?_, ?_⟩
  · intro j hj
    rw [next_GenericReport, patch_other _ _ j hj]
  · rw [next_GenericReport, patch_other _ _ 33 (by decide)]

/-- Instance of C11 at the initial state: after a Report request with PPR 50
the bytes at offsets 31 and 33 are still 0x26 and 0x00. -/
theorem C11_patch_one_byte_witness :
    (CALLBACK_USB_GetDescriptor 0x2200 0 (sampleDevice 0) ⟨50⟩ State.init).2.GenericReport[31]?
        = some 0x26
    ∧ (CALLBACK_USB_GetDescriptor 0x2200 0 (sampleDevice 0) ⟨50⟩ State.init).2.GenericReport[33]?
        = some 0x00 :=
  have h := C11_patch_one_byte 0x2200 0 (sampleDevice 0) ⟨50⟩ State.init
  ⟨(h.2.2.1 31 (by decide)).trans init_bytes_31_33.1, h.2.2.2.trans init_bytes_31_33.2.2⟩

set_option maxRecDepth 100000 in
/-- C12: the patched offset is the low data byte of the analog axes logical
maximum: in the initial `GenericReport` bytes, offset 31 is 0x26, the first byte
of a Logical Maximum global item with 16-bit data, offsets 32 and 33 are its
little-endian data bytes 0xFF and 0x00 (value 255), and the item follows the
usages 0x37 and 0x36 and their 16-bit Logical Minimum 0 at offsets 24..30; the
patch statement, run on the initial array with a nonzero PPR, leaves 0x26, the
new low byte and 0x00 at offsets 31..33. -/
theorem C12_logical_maximum_item :
    GenericReport_init[31]? = some 0x26
    ∧ GenericReport_init[32]? = some 0xFF
    ∧ GenericReport_init[33]? = some 0x00
    ∧ 0x26 = (HID_RI_TYPE_GLOBAL ||| 0x20 ||| HID_RI_DATA_BITS 16)
    ∧ 0xFF + 256 * 0x00 = 255
    ∧ (GenericReport_init.drop 24).take 7 = [0x09, 0x37, 0x09, 0x36, 0x16, 0x00, 0x00]
    ∧ (GenericReport_init.drop 24).take 10
        = HID_RI_USAGE 8 0x37 ++ HID_RI_USAGE 8 0x36 ++ HID_RI_LOGICAL_MINIMUM 16 0
            ++ HID_RI_LOGICAL_MAXIMUM 16 255
    ∧ State.init.GenericReport = GenericReport_init
    ∧ (∀ Rotary : Settings_Rotary_t, Rotary.RotaryPPR ≠ 0 →
        (patchGenericReport Rotary State.init).GenericReport[31]? = some 0x26
        ∧ (patchGenericReport Rotary State.init).GenericReport[32]?
            = some ((Rotary.RotaryPPR - 1) % 256)
        ∧ (patchGenericReport Rotary State.init).GenericReport[33]? = some 0x00) := by
  refine ⟨by decide, by decide, by decide, by decide, by decide, by decide, by decide, rfl, ?_⟩
  intro R hR
  refine ⟨?_, ?_, ?_⟩
  · rw [patch_other _ _ 31 (by decide)]; exact init_bytes_31_33.1
  · rw [patch_byte, if_pos hR]
  · rw [patch_other _ _ 33 (by decide)]; exact init_bytes_31_33.2.2

/-- C13: a HID descriptor request (type 0x21) returns the address of the member
`HID_GenericHID` of the configuration descriptor, with size 9 and in flash; the 9
bytes it designates are the bytes of that member, and they are bytes 18..26 of
the 41 bytes a Configuration request designates, after the 9-byte configuration
header and the 9-byte interface descriptor. -/
theorem C13_hid_descriptor_embedded (k : BoardConstants) (wValue wIndex : Nat)
    (Device : Settings_Device_t) (Rotary : Settings_Rotary_t) (s : State)
    (hty : DescriptorType wValue = HID_DTYPE_HID) :
    (CALLBACK_USB_GetDescriptor wValue wIndex Device Rotary s).1.Address = Address.HID_GenericHID
    ∧ (CALLBACK_USB_GetDescriptor wValue wIndex Device Rotary s).1.Size = 9
    ∧ (CALLBACK_USB_GetDescriptor wValue wIndex Device Rotary s).1.DescriptorMemorySpace
        = MemorySpace.MEMSPACE_FLASH
    ∧ (CALLBACK_USB_GetDescriptor wValue wIndex Device Rotary s).1.designated k
          (CALLBACK_USB_GetDescriptor wValue wIndex Device Rotary s).2
        = (ConfigurationDescriptor k).HID_GenericHID.bytes
    ∧ offsetof_HID_GenericHID = 18
    ∧ sizeof_USB_Descriptor_Configuration_Header_t = 9
    ∧ sizeof_USB_Descriptor_Interface_t = 9
    ∧ (∀ (wValue2 wIndex2 : Nat) (Device2 : Settings_Device_t) (Rotary2 : Settings_Rotary_t)
        (s2 : State), DescriptorType wValue2 = DTYPE_Configuration →
        ((CALLBACK_USB_GetDescriptor wValue2 wIndex2 Device2 Rotary2 s2).1.designated k
            (CALLBACK_USB_GetDescriptor wValue2 wIndex2 Device2 Rotary2 s2).2).length = 41
        ∧ (CALLBACK_USB_GetDescriptor wValue wIndex Device Rotary s).1.designated k
              (CALLBACK_USB_GetDescriptor wValue wIndex Device Rotary s).2
            = (((CALLBACK_USB_GetDescriptor wValue2 wIndex2 Device2 Rotary2 s2).1.designated k
                (CALLBACK_USB_GetDescriptor wValue2 wIndex2 Device2 Rotary2 s2).2).drop 18).take
                  9) := by
  have hr := (fixed_results wValue wIndex Device Rotary s).2.2.1 hty
  have hd : (CALLBACK_USB_GetDescriptor wValue wIndex Device Rotary s).1.designated k
          (CALLBACK_USB_GetDescriptor wValue wIndex Device Rotary s).2
        = (ConfigurationDescriptor k).HID_GenericHID.bytes := by
    unfold Result.designated
    rw [hr]
    rfl
  refine ⟨by rw [hr], by rw [hr], by rw [hr], hd, by decide, by decide, by decide, ?_⟩
  intro v2 i2 D2 R2 s2 h2
  have hr2 := (fixed_results v2 i2 D2 R2 s2).2.1 h2
  have hd2 : (CALLBACK_USB_GetDescriptor v2 i2 D2 R2 s2).1.designated k
      (CALLBACK_USB_GetDescriptor v2 i2 D2 R2 s2).2 = (ConfigurationDescriptor k).bytes := by
    unfold Result.designated
    rw [hr2]
    rfl
  rw [hd, hd2]
  exact ⟨ConfigurationDescriptor_bytes_length k, (HID_GenericHID_slice k).symm⟩

/-- Instance of C13 with sample constants, at the initial state. -/
theorem C13_hid_descriptor_embedded_witness :
    (CALLBACK_USB_GetDescriptor 0x2100 0 (sampleDevice 0) ⟨50⟩ State.init).1.Address
        = Address.HID_GenericHID
    ∧ (CALLBACK_USB_GetDescriptor 0x2100 0 (sampleDevice 0) ⟨50⟩ State.init).1.designated
        sampleConstants (CALLBACK_USB_GetDescriptor 0x2100 0 (sampleDevice 0) ⟨50⟩ State.init).2
      = (ConfigurationDescriptor sampleConstants).HID_GenericHID.bytes :=
  have h := C13_hid_descriptor_embedded sampleConstants 0x2100 0 (sampleDevice 0) ⟨50⟩
    State.init (by decide)
  ⟨h.1, h.2.2.2.1⟩

/-- C14: no call writes the header of the custom string object: in every state
reachable from the initial one its size field is 50 = 2 + 2 * 24 and its type is
String, and any call leaves the header as it finds it; so a (String, Product)
request with Custom selected returns size 50 for every custom name, and the 50
bytes cover the first 24 of the 25 copied code units. -/
theorem C14_custom_header_fixed (s : State) (hs : Reachable s) :
    s.ProductStringCustom.Header.Size = 50
    ∧ 50 = sizeof_USB_Descriptor_Header_t + 2 * 24
    ∧ s.ProductStringCustom.Header.Type_ = DTYPE_String
    ∧ (∀ (wValue wIndex : Nat) (Device : Settings_Device_t) (Rotary : Settings_Rotary_t),
        (CALLBACK_USB_GetDescriptor wValue wIndex Device Rotary s).2.ProductStringCustom.Header
          = s.ProductStringCustom.Header)
    ∧ (∀ (wValue wIndex : Nat) (Device : Settings_Device_t) (Rotary : Settings_Rotary_t),
        DescriptorType wValue = DTYPE_String → DescriptorNumber wValue = STRING_ID_Product →
        Device.DeviceName = N_Custom →
        (CALLBACK_USB_GetDescriptor wValue wIndex Device Rotary s).1.Size = 50
        ∧ (CALLBACK_USB_GetDescriptor wValue wIndex Device Rotary
            s).2.ProductStringCustom.UnicodeString = Device.CustomName
        ∧ Device.CustomName.length = 25
        ∧ wireUnits (CALLBACK_USB_GetDescriptor wValue wIndex Device Rotary s).2.ProductStringCustom
            = Device.CustomName.take 24) := by
  have hh := hs.header
  have h50 : s.ProductStringCustom.Header.Size = 50 := by rw [hh]; decide
  refine ⟨h50, by decide, by rw [hh]; decide, fun v i D R => next_Header v i D R s, ?_⟩
  intro v i D R hty hnum hname
  have hr := product_result v i D R s hty hnum
  have h1 : D.DeviceName ≠ N_P1 := by rw [hname]; decide
  have h2 : D.DeviceName ≠ N_P2 := by rw [hname]; decide
  rw [if_neg h1, if_neg h2, if_pos hname] at hr
  have hpost := next_ProductStringCustom v i D R s
  rw [if_pos ⟨hty, hnum, hname⟩] at hpost
  refine ⟨by rw [hr]; exact h50, by rw [hpost], D.CustomName_length, ?_⟩
  rw [hpost]
  unfold wireUnits
  show D.CustomName.take ((s.ProductStringCustom.Header.Size
    - sizeof_USB_Descriptor_Header_t) / 2) = _
  rw [h50]
  rfl

/-- Instance of C14 at the state a custom-name request leaves behind: the size
field is still 50. -/
theorem C14_custom_header_fixed_witness :
    Reachable (Call.next ⟨0x0302, 0, sampleDevice N_Custom, ⟨50⟩⟩ State.init)
    ∧ (Call.next ⟨0x0302, 0, sampleDevice N_Custom, ⟨50⟩⟩
        State.init).ProductStringCustom.Header.Size = 50 :=
  ⟨Reachable.step _ Reachable.init,
   (C14_custom_header_fixed _ (Reachable.step _ Reachable.init)).1⟩

/-- C15: the length fields stored in the descriptors agree with the sizes the
resolver returns: the size field of the device descriptor with the size returned
for Device; `TotalConfigurationSize` with the size returned for Configuration and
with the sum of the size fields of the five sub-descriptors; the size field of
the HID descriptor with the size returned for HID; `HIDReportLength` with the
size returned for Report; and the size field of the string descriptor returned
for a String request with the size returned for it. -/
theorem C15_length_fields (k : BoardConstants) (wValue wIndex : Nat)
    (Device : Settings_Device_t) (Rotary : Settings_Rotary_t) (s : State) :
    (DescriptorType wValue = DTYPE_Device →
        (DeviceDescriptor k).Header.Size
          = (CALLBACK_USB_GetDescriptor wValue wIndex Device Rotary s).1.Size)
    ∧ (DescriptorType wValue = DTYPE_Configuration →
        (ConfigurationDescriptor k).Config.TotalConfigurationSize
          = (CALLBACK_USB_GetDescriptor wValue wIndex Device Rotary s).1.Size)
    ∧ (ConfigurationDescriptor k).Config.TotalConfigurationSize
        = (ConfigurationDescriptor k).Config.Header.Size
          + (ConfigurationDescriptor k).HID_Interface.Header.Size
          + (ConfigurationDescriptor k).HID_GenericHID.Header.Size
          + (ConfigurationDescriptor k).HID_ReportINEndpoint.Header.Size
          + (ConfigurationDescriptor k).HID_ReportOUTEndpoint.Header.Size
    ∧ (DescriptorType wValue = HID_DTYPE_HID →
        (ConfigurationDescriptor k).HID_GenericHID.Header.Size
          = (CALLBACK_USB_GetDescriptor wValue wIndex Device Rotary s).1.Size)
    ∧ (DescriptorType wValue = HID_DTYPE_Report →
        (ConfigurationDescriptor k).HID_GenericHID.HIDReportLength
          = (CALLBACK_USB_GetDescriptor wValue wIndex Device Rotary s).1.Size)
    ∧ (DescriptorType wValue = DTYPE_String →
        (DescriptorNumber wValue = STRING_ID_Language
          ∨ DescriptorNumber wValue = STRING_ID_Manufacturer
          ∨ DescriptorNumber wValue = STRING_ID_Product) →
        ∃ d : USB_Descriptor_String_t,
          stringAt (CALLBACK_USB_GetDescriptor wValue wIndex Device Rotary s).1.Address
              (CALLBACK_USB_GetDescriptor wValue wIndex Device Rotary s).2 = some d
          ∧ d.Header.Size = (CALLBACK_USB_GetDescriptor wValue wIndex Device Rotary s).1.Size)
    ∧ LanguageString.Header.Size = 4 ∧ ManufacturerString.Header.Size = 34
    ∧ ProductString.Header.Size = 38 ∧ ProductString1P.Header.Size = 34
    ∧ ProductString2P.Header.Size = 34 := by
  have hf := fixed_results wValue wIndex Device Rotary s
  refine ⟨?_, ?_, rfl, ?_, ?_, ?_, by decide, by decide, by decide, by decide, by decide⟩
  · intro h; rw [hf.1 h]; exact sizeof_Device_eq
  · intro h; rw [hf.2.1 h]; exact sizeof_Configuration_eq
  · intro h; rw [hf.2.2.1 h]; exact sizeof_HID_eq
  · intro h; rw [hf.2.2.2.1 h]; exact sizeof_GenericReport_eq
  · intro hty hnum
    rcases hnum with h0 | h1 | h2
    · rw [hf.2.2.2.2.1 hty h0]; exact ⟨LanguageString, rfl, by decide⟩
    · rw [hf.2.2.2.2.2 hty h1]; exact ⟨ManufacturerString, rfl, by decide⟩
    · have hr := product_result wValue wIndex Device Rotary s hty h2
      by_cases d1 : Device.DeviceName = N_P1
      · rw [if_pos d1] at hr; rw [hr]; exact ⟨ProductString1P, rfl, by decide⟩
      rw [if_neg d1] at hr
      by_cases d2 : Device.DeviceName = N_P2
      · rw [if_pos d2] at hr; rw [hr]; exact ⟨ProductString2P, rfl, by decide⟩
      rw [if_neg d2] at hr
      by_cases d3 : Device.DeviceName = N_Custom
      · rw [if_pos d3] at hr; rw [hr]
        refine ⟨_, rfl, ?_⟩
        rw [next_Header]
      · rw [if_neg d3] at hr; rw [hr]; exact ⟨ProductString, rfl, by decide⟩

/-- Instance of C15 with sample constants: `TotalConfigurationSize` is the size
returned for a Configuration request at the initial state. -/
theorem C15_length_fields_witness :
    (ConfigurationDescriptor sampleConstants).Config.TotalConfigurationSize
      = (CALLBACK_USB_GetDescriptor 0x0200 0 (sampleDevice 0) ⟨50⟩ State.init).1.Size :=
  (C15_length_fields sampleConstants 0x0200 0 (sampleDevice 0) ⟨50⟩ State.init).2.1 (by decide)

/-- C16: resolutions out of the byte range wrap silently: for every nonzero PPR,
in particular every nonzero 16-bit value, and every reachable prior state, after
the call `GenericReport[32]` is (PPR - 1) mod 256 and `GenericReport[33]` is
still 0, so two nonzero PPR values that are equal modulo 256 leave byte-identical
report descriptors; PPR 257 and PPR 1 both leave 0 at offset 32. -/
theorem C16_ppr_wraps (wValue wIndex : Nat) (Device : Settings_Device_t)
    (Rotary : Settings_Rotary_t) (s : State) (hs : Reachable s)
    (hppr : Rotary.RotaryPPR ≠ 0) :
    (CALLBACK_USB_GetDescriptor wValue wIndex Device Rotary s).2.GenericReport[32]?
        = some ((Rotary.RotaryPPR - 1) % 256)
    ∧ (CALLBACK_USB_GetDescriptor wValue wIndex Device Rotary s).2.GenericReport[33]? = some 0
    ∧ (∀ (wValue2 wIndex2 : Nat) (Device2 : Settings_Device_t) (Rotary2 : Settings_Rotary_t)
        (t : State), Reachable t → Rotary2.RotaryPPR ≠ 0 →
        Rotary2.RotaryPPR % 256 = Rotary.RotaryPPR % 256 →
        (CALLBACK_USB_GetDescriptor wValue2 wIndex2 Device2 Rotary2 t).2.GenericReport
          = (CALLBACK_USB_GetDescriptor wValue wIndex Device Rotary s).2.GenericReport)
    ∧ (CALLBACK_USB_GetDescriptor wValue wIndex Device ⟨257⟩ s).2.GenericReport[32]? = some 0
    ∧ (CALLBACK_USB_GetDescriptor wValue wIndex Device ⟨1⟩ s).2.GenericReport[32]? = some 0
    ∧ (CALLBACK_USB_GetDescriptor wValue wIndex Device ⟨257⟩ s).2.GenericReport
        = (CALLBACK_USB_GetDescriptor wValue wIndex Device ⟨1⟩ s).2.GenericReport := by
  refine ⟨?_, ?_, ?_, ?_, ?_, ?_⟩
  · rw [next_byte, if_pos hppr]
  · rw [next_GenericReport, patch_other _ _ 33 (by decide), hs.report_other 33 (by decide)]
    exact init_bytes_31_33.2.2
  · intro v2 i2 D2 R2 t ht h2 hmod
    rw [report_of_reachable v2 i2 D2 R2 t ht h2,
      report_of_reachable wValue wIndex Device Rotary s hs hppr]
    congr 1
    omega
  · rw [next_byte]; rfl
  · rw [next_byte]; rfl
  · rw [report_of_reachable wValue wIndex Device ⟨257⟩ s hs (by decide),
      report_of_reachable wValue wIndex Device ⟨1⟩ s hs (by decide)]
    congr 1

/-- Instance of C16 at the initial state: a Report request with PPR 257 leaves
0 at offset 32 and 0 at offset 33. -/
theorem C16_ppr_wraps_witness :
    Reachable State.init
    ∧ (CALLBACK_USB_GetDescriptor 0x2200 0 (sampleDevice 0) ⟨257⟩ State.init).2.GenericReport[32]?
        = some 0
    ∧ (CALLBACK_USB_GetDescriptor 0x2200 0 (sampleDevice 0) ⟨257⟩ State.init).2.GenericReport[33]?
        = some 0 :=
  have h := C16_ppr_wraps 0x2200 0 (sampleDevice 0) ⟨257⟩ State.init Reachable.init (by decide)
  ⟨Reachable.init, h.1, h.2.1⟩

/-- C17: with a nonzero PPR what a request returns does not depend on the call
history: for every request and every configuration with PPR not 0, from any two
states reachable from the initial one the call returns the same address, size and
memory space, and the bytes it designates within the returned size are the same,
although the two states may hold different custom string buffers. -/
theorem C17_history_independent (k : BoardConstants) (wValue wIndex : Nat)
    (Device : Settings_Device_t) (Rotary : Settings_Rotary_t) (s t : State)
    (hs : Reachable s) (ht : Reachable t) (hppr : Rotary.RotaryPPR ≠ 0) :
    (CALLBACK_USB_GetDescriptor wValue wIndex Device Rotary s).1
        = (CALLBACK_USB_GetDescriptor wValue wIndex Device Rotary t).1
    ∧ (CALLBACK_USB_GetDescriptor wValue wIndex Device Rotary s).1.designated k
          (CALLBACK_USB_GetDescriptor wValue wIndex Device Rotary s).2
        = (CALLBACK_USB_GetDescriptor wValue wIndex Device Rotary t).1.designated k
            (CALLBACK_USB_GetDescriptor wValue wIndex Device Rotary t).2 := by
  have hhead : s.ProductStringCustom.Header = t.ProductStringCustom.Header := by
    rw [hs.header, ht.header]
  have hres : (CALLBACK_USB_GetDescriptor wValue wIndex Device Rotary s).1
      = (CALLBACK_USB_GetDescriptor wValue wIndex Device Rotary t).1 :=
    result_congr wValue wIndex wIndex Device Rotary Rotary s t (by rw [hhead])
  have hrep : (CALLBACK_USB_GetDescriptor wValue wIndex Device Rotary s).2.GenericReport
      = (CALLBACK_USB_GetDescriptor wValue wIndex Device Rotary t).2.GenericReport := by
    rw [report_of_reachable wValue wIndex Device Rotary s hs hppr,
      report_of_reachable wValue wIndex Device Rotary t ht hppr]
  have hcus : (CALLBACK_USB_GetDescriptor wValue wIndex Device Rotary s).1.Address
        = Address.ProductStringCustom →
      (CALLBACK_USB_GetDescriptor wValue wIndex Device Rotary s).2.ProductStringCustom
        = (CALLBACK_USB_GetDescriptor wValue wIndex Device Rotary t).2.ProductStringCustom := by
    intro ha
    have hc := (address_custom_iff wValue wIndex Device Rotary s).1 ha
    rw [next_ProductStringCustom, next_ProductStringCustom, if_pos hc, if_pos hc, hhead]
  refine ⟨hres, ?_⟩
  unfold Result.designated
  rw [← hres]
  rw [memoryAt_congr k _ _ _ hrep hcus]

/-- Instance of C17: the initial state and the state left by a custom-name
request with another PPR hold different custom string buffers, and a Report
request with PPR 50 designates the same bytes from both. -/
theorem C17_history_independent_witness :
    State.init.ProductStringCustom
        ≠ (Call.next ⟨0x0302, 0, sampleDevice N_Custom, ⟨75⟩⟩ State.init).ProductStringCustom
    ∧ (CALLBACK_USB_GetDescriptor 0x2200 0 (sampleDevice 0) ⟨50⟩ State.init).1.designated
          sampleConstants
          (CALLBACK_USB_GetDescriptor 0x2200 0 (sampleDevice 0) ⟨50⟩ State.init).2
        = (CALLBACK_USB_GetDescriptor 0x2200 0 (sampleDevice 0) ⟨50⟩
            (Call.next ⟨0x0302, 0, sampleDevice N_Custom, ⟨75⟩⟩ State.init)).1.designated
              sampleConstants
              (CALLBACK_USB_GetDescriptor 0x2200 0 (sampleDevice 0) ⟨50⟩
                (Call.next ⟨0x0302, 0, sampleDevice N_Custom, ⟨75⟩⟩ State.init)).2 :=
  ⟨by
    rw [Call.next, next_ProductStringCustom, if_pos (by decide)]
    decide,
   (C17_history_independent sampleConstants 0x2200 0 (sampleDevice 0) ⟨50⟩ State.init
    (Call.next ⟨0x0302, 0, sampleDevice N_Custom, ⟨75⟩⟩ State.init) Reachable.init
    (Reachable.step _ Reachable.init) (by decide)).2⟩

end USBemani
